import Mathlib

/-!
Shallow embedding of the AeonPay backend core (FastAPI + SQLAlchemy, SQLite)
for the ledger / voucher / mandate / payment-intent / idempotency claims.

Modelling conventions:
* `Decimal(10, 2)` money columns hold exactly the multiples of 0.01, so a
  money amount is embedded as an `Int` number of hundredths (cents).  The
  code only adds, subtracts and compares amounts, which this embedding
  mirrors exactly; the `float(...)` conversions in response bodies are exact
  for two-decimal values of this magnitude, and the guardrail literal
  `250.0` becomes `25000` cents.
* `DateTime` columns and `datetime.utcnow()` are embedded as `Int`
  timestamps; only their total order is used by the code.
* String-typed identifiers and `state` / `status` / `leg` columns stay
  `String`, with the exact literals of the source.
* A SQLAlchemy table is a `List` of rows; `query(...).filter(p).first()` is
  `List.find? p`; an in-place mutation of the row returned by `.first()`
  followed by `commit` is `updateFirst p f` (the first matching row is
  replaced, everything else is untouched).
* Nondeterministic inputs of a request handler (generated uuid4 strings,
  `int(time.time())`, `random.randint`, the simulated mandate outcome
  `random.choice([True, True, True, False])`) are passed as explicit
  arguments.
* `HTTPException(status_code=..., detail=...)` is an `Except HttpError`
  result.
-/

/-- Row of the `users` table (`models.py`), fields the core reads. -/
structure User where
  id : String
  phone : String
  name : String
  deriving Repr, DecidableEq

/-- Row of the `plans` table (`models.py`). -/
structure Plan where
  id : String
  name : String
  cap_per_head : Int
  window_start : Int
  window_end : Int
  merchant_whitelist : List String
  status : String
  created_by : String
  deriving Repr, DecidableEq

/-- Row of the `merchants` table (`models.py`), fields the core reads. -/
structure Merchant where
  id : String
  name : String
  category : String
  deriving Repr, DecidableEq

/-- Row of the `vouchers` table (`models.py`). -/
structure Voucher where
  id : String
  plan_id : String
  member_user_id : String
  amount : Int
  merchant_list : List String
  expires_at : Int
  state : String
  deriving Repr, DecidableEq

/-- Row of the `voucher_redemptions` table (`models.py`).
`merchant_id` comes from `redemption_data.get("merchant_id")`, which may be
absent, hence `Option`. -/
structure VoucherRedemption where
  id : String
  voucher_id : String
  amount : Int
  merchant_id : Option String
  deriving Repr, DecidableEq

/-- Row of the `mandates` table (`models.py`). -/
structure Mandate where
  id : String
  plan_id : String
  member_user_id : String
  cap_amount : Int
  valid_from : Int
  valid_to : Int
  state : String
  deriving Repr, DecidableEq

/-- Row of the `mandate_executions` table (`models.py`). -/
structure MandateExecution where
  id : String
  mandate_id : String
  amount : Int
  merchant_id : Option String
  status : String
  deriving Repr, DecidableEq

/-- Row of the `transactions` table (`models.py`). -/
structure Transaction where
  id : String
  intent_id : String
  plan_id : String
  merchant_id : String
  amount : Int
  mode : String
  status : String
  rrn_stub : Option String
  deriving Repr, DecidableEq

/-- Row of the `ledger_entries` table (`models.py`). -/
structure LedgerEntry where
  id : String
  txn_id : String
  account : String
  leg : String
  amount : Int
  deriving Repr, DecidableEq

/-- `HTTPException(status_code, detail)` as raised by the routes. -/
structure HttpError where
  status_code : Nat
  detail : String
  deriving Repr, DecidableEq

/-- Replace the first element satisfying `p` by its image under `f`,
leaving everything else unchanged.  This is how a SQLAlchemy in-place
mutation of the row returned by `.filter(p).first()` acts on the table. -/
def updateFirst (p : α → Bool) (f : α → α) : List α → List α
  | [] => []
  | x :: xs => if p x then f x :: xs else x :: updateFirst p f xs

/-- The whole database, one list per table (`database.py` + `models.py`). -/
structure SysState where
  users : List User
  plans : List Plan
  merchants : List Merchant
  vouchers : List Voucher
  redemptions : List VoucherRedemption
  mandates : List Mandate
  executions : List MandateExecution
  transactions : List Transaction
  ledger : List LedgerEntry
  deriving Repr, DecidableEq

/-! ## Ledger service (`services/ledger.py`) -/

/-- `create_ledger_entries` (`services/ledger.py`, lines 6-36): appends one
debit and one credit entry of the same amount for one transaction.  The two
fresh `uuid.uuid4()` strings are passed explicitly. -/
def create_ledger_entries (ledger : List LedgerEntry)
    (debit_uuid credit_uuid : String) (transaction_id : String) (amount : Int)
    (account_debit account_credit : String) : List LedgerEntry :=
  let debit_entry : LedgerEntry :=
    { id := debit_uuid, txn_id := transaction_id, account := account_debit,
      leg := "debit", amount := amount }
  let credit_entry : LedgerEntry :=
    { id := credit_uuid, txn_id := transaction_id, account := account_credit,
      leg := "credit", amount := amount }
  ledger ++ [debit_entry, credit_entry]

/-- `SUM(amount) WHERE leg = l` over the `ledger_entries` table
(the `func.sum ... or Decimal(0)` pattern of `services/ledger.py`). -/
def sumLeg (ledger : List LedgerEntry) (l : String) : Int :=
  ((ledger.filter (fun e => e.leg = l)).map (fun e => e.amount)).sum

/-- `verify_ledger_balance` (`services/ledger.py`, lines 59-72):
total debits equal total credits across the whole ledger. -/
def verify_ledger_balance (ledger : List LedgerEntry) : Bool :=
  sumLeg ledger "debit" = sumLeg ledger "credit"

/-- `get_account_balance` (`services/ledger.py`, lines 38-57):
sum of credits minus sum of debits for one account. -/
def get_account_balance (ledger : List LedgerEntry) (account : String) : Int :=
  let credits :=
    ((ledger.filter (fun e => e.account = account && e.leg = "credit")).map
      (fun e => e.amount)).sum
  let debits :=
    ((ledger.filter (fun e => e.account = account && e.leg = "debit")).map
      (fun e => e.amount)).sum
  credits - debits

/-! ## Request payloads (pydantic models in `models.py`) -/

/-- `PaymentIntentCreate` (`models.py`). -/
structure PaymentIntentCreate where
  amount : Int
  merchant_id : String
  plan_id : String
  mode : String
  deriving Repr, DecidableEq

/-- `PaymentConfirm` (`models.py`). -/
structure PaymentConfirm where
  intent_id : String
  status : String
  rrn_stub : Option String
  deriving Repr, DecidableEq

/-- `VoucherCreate` (`models.py`). -/
structure VoucherCreate where
  plan_id : String
  member_user_ids : List String
  amount : Int
  merchant_list : List String
  expires_at : Int
  deriving Repr, DecidableEq

/-- `MandateCreate` (`models.py`). -/
structure MandateCreate where
  plan_id : String
  member_user_ids : List String
  cap_amount : Int
  valid_from : Int
  valid_to : Int
  deriving Repr, DecidableEq

/-! ## Payments routes (`routes/payments.py`) -/

/-- Response body of `POST /api/payments/intent`. -/
structure IntentResult where
  intent_id : String
  transaction : Transaction
  guardrail_required : Bool
  deriving Repr, DecidableEq

/-- Response body of `POST /api/payments/confirm`. -/
structure ConfirmResult where
  transaction_id : String
  status : String
  rrn_stub : Option String
  deriving Repr, DecidableEq

/-- The intent-id generator of `create_payment_intent`
(`routes/payments.py`, line 36):
`f"intent_{int(time.time())}_{random.randint(1000, 9999)}"`.
`t` is the epoch second (non-negative on a real clock, hence `Nat`) and
`r` the draw of `random.randint(1000, 9999)`. -/
def genIntentId (t r : Nat) : String :=
  "intent_" ++ Nat.repr t ++ "_" ++ Nat.repr r

/-- `create_payment_intent` (`routes/payments.py`, lines 17-67).
`t` and `r` are the clock reading and the random draw of line 36 and
`txn_uuid` the fresh `uuid.uuid4()` of line 40.
The `transactions.intent_id` column carries `unique=True` (`models.py`,
line 151) and the route does not guard `db.commit()` (line 50): inserting
a transaction whose generated intent id is already persisted raises
`IntegrityError` at commit, which FastAPI surfaces as a plain 500
`"Internal Server Error"` response with no intent id returned; the session
is closed by the `get_db` dependency and its pending insert is discarded,
so the database is unchanged on that path. -/
def create_payment_intent (s : SysState) (intent_data : PaymentIntentCreate)
    (t r : Nat) (txn_uuid : String) : SysState × Except HttpError IntentResult :=
  match s.plans.find? (fun p => p.id = intent_data.plan_id) with
  | none => (s, .error ⟨404, "Plan not found"⟩)
  | some _ =>
    match s.merchants.find? (fun m => m.id = intent_data.merchant_id) with
    | none => (s, .error ⟨404, "Merchant not found"⟩)
    | some _ =>
      let intent_id := genIntentId t r
      let transaction : Transaction :=
        { id := txn_uuid, intent_id := intent_id,
          plan_id := intent_data.plan_id, merchant_id := intent_data.merchant_id,
          amount := intent_data.amount, mode := intent_data.mode,
          status := "pending", rrn_stub := none }
      -- `db.commit()` against the `unique=True` intent_id column
      if s.transactions.any (fun tx => tx.intent_id = intent_id) then
        (s, .error ⟨500, "Internal Server Error"⟩)
      else
        -- `float(intent_data.amount) > 250.0`, in cents
        let guardrail_required := intent_data.amount > 25000
        ({ s with transactions := s.transactions ++ [transaction] },
         .ok { intent_id := intent_id, transaction := transaction,
               guardrail_required := guardrail_required })

/-- `confirm_payment` (`routes/payments.py`, lines 69-114).
`debit_uuid` / `credit_uuid` are the fresh ids drawn inside
`create_ledger_entries` when it is invoked. -/
def confirm_payment (s : SysState) (confirm_data : PaymentConfirm)
    (debit_uuid credit_uuid : String) : SysState × Except HttpError ConfirmResult :=
  match s.transactions.find?
      (fun tx => tx.intent_id = confirm_data.intent_id && tx.status = "pending") with
  | none => (s, .error ⟨404, "Transaction not found or already processed"⟩)
  | some transaction =>
    let transactions' := updateFirst
      (fun tx => tx.intent_id = confirm_data.intent_id && tx.status = "pending")
      (fun tx => { tx with status := confirm_data.status,
                           rrn_stub := confirm_data.rrn_stub })
      s.transactions
    let ledger' :=
      if confirm_data.status = "completed" then
        create_ledger_entries s.ledger debit_uuid credit_uuid transaction.id
          transaction.amount ("plan_" ++ transaction.plan_id)
          ("merchant_" ++ transaction.merchant_id)
      else s.ledger
    ({ s with transactions := transactions', ledger := ledger' },
     .ok { transaction_id := transaction.id, status := confirm_data.status,
           rrn_stub := confirm_data.rrn_stub })

/-! ## Voucher routes (`routes/vouchers.py`) -/

/-- Response body of `POST /api/vouchers/mint`. -/
structure MintResult where
  vouchers : List Voucher
  deriving Repr, DecidableEq

/-- One element of the `redeemed` array in the `/redeem` response. -/
structure RedeemOk where
  voucher_id : String
  amount : Int
  remaining : Int
  deriving Repr, DecidableEq

/-- One element of the `failed` array in the `/redeem` response. -/
structure RedeemFail where
  voucher_id : String
  reason : String
  deriving Repr, DecidableEq

/-- The `result` object of the `/redeem` response. -/
structure RedeemResult where
  redeemed : List RedeemOk
  failed : List RedeemFail
  total_redeemed : Nat
  total_failed : Nat
  deriving Repr, DecidableEq

/-- The member loop of `mint_vouchers` (`routes/vouchers.py`, lines 35-53):
one voucher per occurrence of a member id whose user exists; an unknown
member id is skipped (`continue`).  `uuids k` is the `uuid.uuid4()` drawn
for the k-th voucher actually created. -/
def mint_loop (users : List User) (d : VoucherCreate) (uuids : Nat → String) :
    Nat → List String → List Voucher
  | _, [] => []
  | k, member_id :: rest =>
    if (users.find? (fun u => u.id = member_id)).isSome then
      { id := uuids k, plan_id := d.plan_id, member_user_id := member_id,
        amount := d.amount, merchant_list := d.merchant_list,
        expires_at := d.expires_at, state := "active" } ::
        mint_loop users d uuids (k + 1) rest
    else
      mint_loop users d uuids k rest

/-- `mint_vouchers` (`routes/vouchers.py`, lines 17-69). -/
def mint_vouchers (s : SysState) (current_user : String)
    (voucher_data : VoucherCreate) (uuids : Nat → String) :
    SysState × Except HttpError MintResult :=
  match s.plans.find? (fun p => p.id = voucher_data.plan_id) with
  | none => (s, .error ⟨404, "Plan not found"⟩)
  | some plan =>
    if plan.created_by ≠ current_user then
      (s, .error ⟨403, "Only plan creator can mint vouchers"⟩)
    else
      let created := mint_loop s.users voucher_data uuids 0 voucher_data.member_user_ids
      ({ s with vouchers := s.vouchers ++ created }, .ok { vouchers := created })

/-- The per-leg loop of `redeem_vouchers` (`routes/vouchers.py`,
lines 90-131), already zipped: the source iterates
`enumerate(voucher_ids)` and reads `amounts[i]`, which on equal-length
lists is exactly `voucher_ids.zip amounts`.  The accumulators mirror the
`redeemed` / `failed` lists; `uuids k` is the `uuid.uuid4()` for the k-th
redemption record created.  The `try/except` around a leg has no effect in
this model (no statement in the body can raise for in-range indices).
Deliberate simplification of one corner: the per-leg `find?` runs on the
session's current (mutated) rows, including the `state` column.  In the
source the session is built with `autoflush=False`, so the SQL filter
evaluates `state == "active"` against the unflushed (pre-batch) stored
rows while the identity map hands back the mutated instance; the two
semantics differ only for a batch naming the same voucher id twice after
an earlier leg fully redeemed it, where the source fails that later leg
with `"Insufficient voucher balance"` and this model with
`"Voucher not found or inactive"` — a corner no claim touches. -/
def redeem_loop (now : Int) (merchant_id : Option String) (uuids : Nat → String) :
    Nat → List Voucher → List VoucherRedemption → List RedeemOk → List RedeemFail →
    List (String × Int) →
    List Voucher × List VoucherRedemption × List RedeemOk × List RedeemFail
  | _, vs, rds, red, fl, [] => (vs, rds, red, fl)
  | k, vs, rds, red, fl, (voucher_id, amount_to_redeem) :: rest =>
    match vs.find? (fun v => v.id = voucher_id && v.state = "active") with
    | none =>
      redeem_loop now merchant_id uuids k vs rds red
        (fl ++ [{ voucher_id := voucher_id,
                  reason := "Voucher not found or inactive" }]) rest
    | some voucher =>
      if voucher.expires_at < now then
        redeem_loop now merchant_id uuids k vs rds red
          (fl ++ [{ voucher_id := voucher_id, reason := "Voucher expired" }]) rest
      else if amount_to_redeem > voucher.amount then
        redeem_loop now merchant_id uuids k vs rds red
          (fl ++ [{ voucher_id := voucher_id,
                    reason := "Insufficient voucher balance" }]) rest
      else
        let redemption : VoucherRedemption :=
          { id := uuids k, voucher_id := voucher_id,
            amount := amount_to_redeem, merchant_id := merchant_id }
        let vs' := updateFirst (fun v => v.id = voucher_id && v.state = "active")
          (fun v =>
            let a := v.amount - amount_to_redeem
            { v with amount := a, state := if a ≤ 0 then "redeemed" else v.state })
          vs
        redeem_loop now merchant_id uuids (k + 1) vs' (rds ++ [redemption])
          (red ++ [{ voucher_id := voucher_id, amount := amount_to_redeem,
                     remaining := voucher.amount - amount_to_redeem }]) fl rest

/-- `redeem_vouchers` (`routes/vouchers.py`, lines 71-148).
`now` is the `datetime.utcnow()` reading of line 101.  The batch's new
redemption records are `db.add`-ed to the existing `voucher_redemptions`
table, hence the append. -/
def redeem_vouchers (s : SysState) (voucher_ids : List String)
    (amounts : List Int) (merchant_id : Option String) (now : Int)
    (uuids : Nat → String) : SysState × Except HttpError RedeemResult :=
  if voucher_ids.length ≠ amounts.length then
    (s, .error ⟨400, "Voucher IDs and amounts must match"⟩)
  else
    let (vs', rds', redeemed, failed) :=
      redeem_loop now merchant_id uuids 0 s.vouchers [] [] []
        (voucher_ids.zip amounts)
    ({ s with vouchers := vs', redemptions := s.redemptions ++ rds' },
     .ok { redeemed := redeemed, failed := failed,
           total_redeemed := redeemed.length, total_failed := failed.length })

/-! ## Mandate routes (`routes/mandates.py`) -/

/-- Response body of `POST /api/mandates/create`. -/
structure MandatesResult where
  mandates : List Mandate
  deriving Repr, DecidableEq

/-- The `result` object of the `/execute` response. -/
structure ExecuteResult where
  mandate_id : String
  amount : Int
  status : String
  remaining_cap : Int
  execution_id : String
  deriving Repr, DecidableEq

/-- The member loop of `create_mandates` (`routes/mandates.py`,
lines 33-51); same shape as `mint_loop`. -/
def create_loop (users : List User) (d : MandateCreate) (uuids : Nat → String) :
    Nat → List String → List Mandate
  | _, [] => []
  | k, member_id :: rest =>
    if (users.find? (fun u => u.id = member_id)).isSome then
      { id := uuids k, plan_id := d.plan_id, member_user_id := member_id,
        cap_amount := d.cap_amount, valid_from := d.valid_from,
        valid_to := d.valid_to, state := "active" } ::
        create_loop users d uuids (k + 1) rest
    else
      create_loop users d uuids k rest

/-- `create_mandates` (`routes/mandates.py`, lines 15-67). -/
def create_mandates (s : SysState) (current_user : String)
    (mandate_data : MandateCreate) (uuids : Nat → String) :
    SysState × Except HttpError MandatesResult :=
  match s.plans.find? (fun p => p.id = mandate_data.plan_id) with
  | none => (s, .error ⟨404, "Plan not found"⟩)
  | some plan =>
    if plan.created_by ≠ current_user then
      (s, .error ⟨403, "Only plan creator can create mandates"⟩)
    else
      let created := create_loop s.users mandate_data uuids 0 mandate_data.member_user_ids
      ({ s with mandates := s.mandates ++ created }, .ok { mandates := created })

/-- Python truthiness of `execution_data.get("mandate_id")`:
falsy when the key is absent or the value is the empty string. -/
def pyFalsyStr : Option String → Bool
  | none => true
  | some v => v = ""

/-- Python truthiness of `execution_data.get("amount")`:
falsy when the key is absent or the value is numerically zero. -/
def pyFalsyAmount : Option Int → Bool
  | none => true
  | some a => a = 0

/-- `execute_mandate` (`routes/mandates.py`, lines 69-133).
`success` is the simulated outcome drawn at line 99
(`random.choice([True, True, True, False])`), passed explicitly;
`exec_uuid` is the fresh id of the execution record. -/
def execute_mandate (s : SysState) (mandate_id : Option String)
    (amount : Option Int) (merchant_id : Option String) (success : Bool)
    (exec_uuid : String) : SysState × Except HttpError ExecuteResult :=
  if pyFalsyStr mandate_id || pyFalsyAmount amount then
    (s, .error ⟨400, "Mandate ID and amount required"⟩)
  else
    let mid := mandate_id.getD ""
    let amt := amount.getD 0
    match s.mandates.find? (fun m => m.id = mid && m.state = "active") with
    | none => (s, .error ⟨404, "Mandate not found or inactive"⟩)
    | some mandate =>
      if amt > mandate.cap_amount then
        (s, .error ⟨400, "Amount exceeds mandate cap"⟩)
      else
        let execution : MandateExecution :=
          { id := exec_uuid, mandate_id := mid, amount := amt,
            merchant_id := merchant_id,
            status := if success then "success" else "failed" }
        let mandates' :=
          if success then
            updateFirst (fun m => m.id = mid && m.state = "active")
              (fun m =>
                let c := m.cap_amount - amt
                { m with cap_amount := c,
                         state := if c ≤ 0 then "expired" else m.state })
              s.mandates
          else s.mandates
        ({ s with mandates := mandates',
                  executions := s.executions ++ [execution] },
         .ok { mandate_id := mid, amount := amt, status := execution.status,
               remaining_cap :=
                 if success then mandate.cap_amount - amt else mandate.cap_amount,
               execution_id := exec_uuid })

/-! ## Idempotency layer (`services/idempotency.py` + middleware in `main.py`) -/

/-- JSON-serialisable response bodies, as stored in the nullable JSON column
`idempotent_requests.response_data` (a Python value of `None`, `bool`,
number, string, list or dict). -/
inductive JsonVal where
  | null : JsonVal
  | bool (b : Bool) : JsonVal
  | num (n : Int) : JsonVal
  | str (s : String) : JsonVal
  | arr (elems : List JsonVal) : JsonVal
  | obj (fields : List (String × JsonVal)) : JsonVal

/-- Python truthiness of a JSON value (`if request.response_data:`):
`None`, `False`, `0`, `""`, `[]` and the empty dict are falsy. -/
def pyTruthy : JsonVal → Bool
  | .null => false
  | .bool b => b
  | .num n => n != 0
  | .str s => s ≠ ""
  | .arr elems => ¬ elems.isEmpty
  | .obj fields => ¬ fields.isEmpty

/-- Row of the `idempotent_requests` table (`models.py`). -/
structure IdemRecord where
  id : String
  idempotency_key : String
  response_data : JsonVal

/-- `IdempotencyService.get_response` (`services/idempotency.py`,
lines 15-27): returns the stored payload for the key, but only when it is
truthy (`if request and request.response_data`); the found ORM row itself
is always truthy. -/
def get_response (table : List IdemRecord) (idempotency_key : String) :
    Option JsonVal :=
  match table.find? (fun r => r.idempotency_key = idempotency_key) with
  | some req => if pyTruthy req.response_data then some req.response_data else none
  | none => none

/-- `IdempotencyService.store_response` (`services/idempotency.py`,
lines 29-47): first write wins; if a record for the key already exists the
call is a silent no-op.  `fresh_id` is the `uuid.uuid4()` of line 40. -/
def store_response (table : List IdemRecord) (idempotency_key : String)
    (response_data : JsonVal) (fresh_id : String) : List IdemRecord :=
  match table.find? (fun r => r.idempotency_key = idempotency_key) with
  | some _ => table
  | none =>
    table ++ [{ id := fresh_id, idempotency_key := idempotency_key,
                response_data := response_data }]

/-- One side-effecting request under the idempotency middleware
(`main.py` lines 41-54 composed with a route's trailing
`store_idempotent_response` call, `routes/*.py`).  `handler` is the route
body; with a key present, a cached response short-circuits the route
entirely, otherwise the route runs and, on success, stores its response
body under the key.  On an `HTTPException` the route aborts before its store
call, so nothing is stored. -/
def handle_with_idempotency (handler : SysState → SysState × Except HttpError JsonVal)
    (key : Option String) (table : List IdemRecord) (s : SysState)
    (fresh_id : String) :
    SysState × List IdemRecord × Except HttpError JsonVal :=
  match key with
  | none =>
    let (s', r) := handler s
    (s', table, r)
  | some k =>
    match get_response table k with
    | some cached => (s, table, .ok cached)
    | none =>
      let (s', r) := handler s
      match r with
      | .ok body => (s', store_response table k body fresh_id, .ok body)
      | .error e => (s', table, .error e)

/-! ## Sequences of operations over the whole system -/

/-- One invocation of a core route, carrying its request payload and all
nondeterministic inputs (clock, random draws, fresh uuids). -/
inductive Op where
  | intent (d : PaymentIntentCreate) (t r : Nat) (txn_uuid : String) : Op
  | confirm (d : PaymentConfirm) (debit_uuid credit_uuid : String) : Op
  | mint (current_user : String) (d : VoucherCreate) (uuids : Nat → String) : Op
  | redeem (voucher_ids : List String) (amounts : List Int)
      (merchant_id : Option String) (now : Int) (uuids : Nat → String) : Op
  | createMandates (current_user : String) (d : MandateCreate)
      (uuids : Nat → String) : Op
  | execute (mandate_id : Option String) (amount : Option Int)
      (merchant_id : Option String) (success : Bool) (exec_uuid : String) : Op

/-- State transition of one route invocation (the response is dropped). -/
def step (s : SysState) : Op → SysState
  | .intent d t r u => (create_payment_intent s d t r u).1
  | .confirm d u1 u2 => (confirm_payment s d u1 u2).1
  | .mint cu d us => (mint_vouchers s cu d us).1
  | .redeem vids amts mid now us => (redeem_vouchers s vids amts mid now us).1
  | .createMandates cu d us => (create_mandates s cu d us).1
  | .execute mid amt mcht succ u => (execute_mandate s mid amt mcht succ u).1

/-- Run a sequence of route invocations. -/
def runOps (s : SysState) (ops : List Op) : SysState :=
  ops.foldl step s

/-! ## Helper lemmas -/

/-- `updateFirst` splitting: either nothing matches and the list is
unchanged, or the list splits around the first match, which is exactly the
element `find?` returns, and only that occurrence is rewritten. -/
theorem updateFirst_split (p : α → Bool) (f : α → α) (l : List α) :
    (l.find? p = none ∧ updateFirst p f l = l) ∨
    ∃ l₁ x l₂, l = l₁ ++ x :: l₂ ∧ (∀ y ∈ l₁, p y = false) ∧ p x = true ∧
      l.find? p = some x ∧ updateFirst p f l = l₁ ++ f x :: l₂ := by
  induction l with
  | nil => exact Or.inl ⟨rfl, rfl⟩
  | cons a l ih =>
    by_cases hp : p a
    · refine Or.inr ⟨[], a, l, rfl, by simp, hp, ?_, ?_⟩
      · simp [List.find?, hp]
      · simp [updateFirst, hp]
    · rcases ih with ⟨hf, hu⟩ | ⟨l₁, x, l₂, hl, hl₁, hx, hf, hu⟩
      · refine Or.inl ⟨?_, ?_⟩
        · simp [List.find?, hp, hf]
        · simp [updateFirst, hp, hu]
      · refine Or.inr ⟨a :: l₁, x, l₂, by simp [hl], ?_, hx, ?_, ?_⟩
        · intro y hy
          rcases List.mem_cons.mp hy with h | h
          · simpa [h] using hp
          · exact hl₁ y h
        · simp [List.find?, hp, hf]
        · simp [updateFirst, hp, hu]

/-- Splitting the leg-sum of the ledger over an append. -/
theorem sumLeg_append (l₁ l₂ : List LedgerEntry) (leg : String) :
    sumLeg (l₁ ++ l₂) leg = sumLeg l₁ leg + sumLeg l₂ leg := by
  simp [sumLeg, List.filter_append]

/-- `create_ledger_entries` adds the same amount to both leg totals, so it
preserves the balance invariant. -/
theorem verify_create_ledger_entries (l : List LedgerEntry)
    (u1 u2 tid : String) (a : Int) (ad ac : String)
    (h : verify_ledger_balance l = true) :
    verify_ledger_balance (create_ledger_entries l u1 u2 tid a ad ac) = true := by
  have hd : sumLeg (create_ledger_entries l u1 u2 tid a ad ac) "debit"
      = sumLeg l "debit" + a := by
    simp [create_ledger_entries, sumLeg_append, sumLeg]
  have hc : sumLeg (create_ledger_entries l u1 u2 tid a ad ac) "credit"
      = sumLeg l "credit" + a := by
    simp [create_ledger_entries, sumLeg_append, sumLeg]
  simp only [verify_ledger_balance, decide_eq_true_eq] at h ⊢
  rw [hd, hc, h]

/-- `create_payment_intent` never touches the ledger table. -/
theorem create_payment_intent_ledger (s : SysState) (d : PaymentIntentCreate)
    (t r : Nat) (u : String) : (create_payment_intent s d t r u).1.ledger = s.ledger := by
  cases hp : s.plans.find? (fun p => p.id = d.plan_id) with
  | none => simp [create_payment_intent, hp]
  | some p =>
    cases hm : s.merchants.find? (fun m => m.id = d.merchant_id) with
    | none => simp [create_payment_intent, hp, hm]
    | some m =>
      by_cases hdup : s.transactions.any (fun tx => tx.intent_id = genIntentId t r) <;>
        simp [create_payment_intent, hp, hm, hdup]

/-- Branch lemma: a generated intent id that is already persisted hits the
`unique=True` column at commit — the request fails 500 and the database is
unchanged. -/
theorem create_payment_intent_dup (s : SysState) (d : PaymentIntentCreate)
    (t r : Nat) (u : String) (p : Plan) (m : Merchant)
    (hp : s.plans.find? (fun x => x.id = d.plan_id) = some p)
    (hm : s.merchants.find? (fun x => x.id = d.merchant_id) = some m)
    (hdup : s.transactions.any (fun tx => tx.intent_id = genIntentId t r) = true) :
    create_payment_intent s d t r u = (s, .error ⟨500, "Internal Server Error"⟩) := by
  simp [create_payment_intent, hp, hm, hdup]

/-- Branch lemma: with plan and merchant found and a fresh generated id,
the intent call appends one pending transaction and returns it. -/
theorem create_payment_intent_fresh (s : SysState) (d : PaymentIntentCreate)
    (t r : Nat) (u : String) (p : Plan) (m : Merchant)
    (hp : s.plans.find? (fun x => x.id = d.plan_id) = some p)
    (hm : s.merchants.find? (fun x => x.id = d.merchant_id) = some m)
    (hdup : s.transactions.any (fun tx => tx.intent_id = genIntentId t r) = false) :
    create_payment_intent s d t r u =
      ({ s with transactions := s.transactions ++
          [⟨u, genIntentId t r, d.plan_id, d.merchant_id, d.amount, d.mode, "pending", none⟩] },
       .ok { intent_id := genIntentId t r,
             transaction := ⟨u, genIntentId t r, d.plan_id, d.merchant_id,
               d.amount, d.mode, "pending", none⟩,
             guardrail_required := d.amount > 25000 }) := by
  simp [create_payment_intent, hp, hm, hdup]

/-- `mint_vouchers` never touches the ledger table (the import of
`create_ledger_entries` in `routes/vouchers.py` is unused). -/
theorem mint_vouchers_ledger (s : SysState) (cu : String) (d : VoucherCreate)
    (us : Nat → String) : (mint_vouchers s cu d us).1.ledger = s.ledger := by
  cases hp : s.plans.find? (fun p => p.id = d.plan_id) with
  | none => simp [mint_vouchers, hp]
  | some p =>
    by_cases hc : p.created_by = cu <;> simp [mint_vouchers, hp, hc]

/-- `create_mandates` never touches the ledger table. -/
theorem create_mandates_ledger (s : SysState) (cu : String) (d : MandateCreate)
    (us : Nat → String) : (create_mandates s cu d us).1.ledger = s.ledger := by
  cases hp : s.plans.find? (fun p => p.id = d.plan_id) with
  | none => simp [create_mandates, hp]
  | some p =>
    by_cases hc : p.created_by = cu <;> simp [create_mandates, hp, hc]

/-- `redeem_vouchers` never touches the ledger table. -/
theorem redeem_vouchers_ledger (s : SysState) (vids : List String)
    (amts : List Int) (mid : Option String) (now : Int) (us : Nat → String) :
    (redeem_vouchers s vids amts mid now us).1.ledger = s.ledger := by
  by_cases hl : vids.length = amts.length
  · obtain ⟨vs', rds', red, fl⟩ :
        List Voucher × List VoucherRedemption × List RedeemOk × List RedeemFail :=
      redeem_loop now mid us 0 s.vouchers [] [] [] (vids.zip amts)
    simp [redeem_vouchers, hl]
  · simp [redeem_vouchers, hl]

/-- `execute_mandate` never touches the ledger table. -/
theorem execute_mandate_ledger (s : SysState) (mid : Option String)
    (amt : Option Int) (mcht : Option String) (succ : Bool) (u : String) :
    (execute_mandate s mid amt mcht succ u).1.ledger = s.ledger := by
  by_cases h0 : (pyFalsyStr mid || pyFalsyAmount amt) = true
  · simp [execute_mandate, h0]
  · cases hm : s.mandates.find?
        (fun m => m.id = mid.getD "" && m.state = "active") with
    | none => simp [execute_mandate, h0, hm]
    | some m =>
      by_cases hcap : amt.getD 0 > m.cap_amount <;>
        simp [execute_mandate, h0, hm, hcap]

/-- `confirm_payment` preserves the global debit/credit balance: it either
leaves the ledger alone or appends one equal-amount debit/credit pair via
`create_ledger_entries`. -/
theorem confirm_payment_balance (s : SysState) (d : PaymentConfirm)
    (u1 u2 : String) (h : verify_ledger_balance s.ledger = true) :
    verify_ledger_balance (confirm_payment s d u1 u2).1.ledger = true := by
  cases ht : s.transactions.find?
      (fun tx => tx.intent_id = d.intent_id && tx.status = "pending") with
  | none => simpa [confirm_payment, ht] using h
  | some tx =>
    by_cases hst : d.status = "completed"
    · simp only [confirm_payment, ht, hst]
      simpa using verify_create_ledger_entries s.ledger u1 u2 tx.id tx.amount
        ("plan_" ++ tx.plan_id) ("merchant_" ++ tx.merchant_id) h
    · simpa [confirm_payment, ht, hst] using h

/-- Every single route invocation preserves the ledger-balance invariant. -/
theorem step_balance (s : SysState) (op : Op)
    (h : verify_ledger_balance s.ledger = true) :
    verify_ledger_balance (step s op).ledger = true := by
  cases op with
  | intent d t r u => rw [step, create_payment_intent_ledger]; exact h
  | confirm d u1 u2 => exact confirm_payment_balance s d u1 u2 h
  | mint cu d us => rw [step, mint_vouchers_ledger]; exact h
  | redeem vids amts mid now us => rw [step, redeem_vouchers_ledger]; exact h
  | createMandates cu d us => rw [step, create_mandates_ledger]; exact h
  | execute mid amt mcht succ u => rw [step, execute_mandate_ledger]; exact h

/-- Balance is preserved by any sequence of route invocations. -/
theorem runOps_balance (s : SysState) (ops : List Op)
    (h : verify_ledger_balance s.ledger = true) :
    verify_ledger_balance (runOps s ops).ledger = true := by
  induction ops generalizing s with
  | nil => exact h
  | cons op ops ih => exact ih (step s op) (step_balance s op h)

/-! ## Fixtures for concrete evaluations -/

/-- A seeded user (shape of `seed_data.py` rows). -/
def exUser : User := { id := "u1", phone := "9999999999", name := "Asha" }

/-- A second seeded user. -/
def exUser2 : User := { id := "u2", phone := "8888888888", name := "Ravi" }

/-- A third seeded user. -/
def exUser3 : User := { id := "u3", phone := "7777777777", name := "Meera" }

/-- A plan created by `u1`. -/
def exPlan : Plan :=
  { id := "p1", name := "Goa Trip", cap_per_head := 50000, window_start := 0,
    window_end := 1000000, merchant_whitelist := ["m1"], status := "active",
    created_by := "u1" }

/-- A seeded merchant. -/
def exMerchant : Merchant := { id := "m1", name := "Chai Point", category := "beverages" }

/-- A database holding only directory data (users / plan / merchant), with
all core tables empty — the state right after seeding, which writes no
ledger entries (`seed_data.py` only inserts users, campuses, merchants,
plans and plan members). -/
def exState : SysState :=
  { users := [exUser, exUser2, exUser3], plans := [exPlan], merchants := [exMerchant],
    vouchers := [], redemptions := [], mandates := [], executions := [],
    transactions := [], ledger := [] }

/-- A uuid supply for concrete runs. -/
def exUuids : Nat → String := fun k => "id-" ++ Nat.repr k

/-- A concrete operation sequence: create an intent, then confirm it as
completed (which posts a debit/credit pair). -/
def exOps : List Op :=
  [ .intent { amount := 30000, merchant_id := "m1", plan_id := "p1",
              mode := "vouchers" } 1000 1234 "tx1",
    .confirm { intent_id := genIntentId 1000 1234, status := "completed",
               rrn_stub := some "rrn1" } "L1" "L2" ]

/-- C1: For every reachable state of the system, the global ledger is
balanced: starting from any state whose ledger is balanced (in particular
the seeded initial state, whose ledger is empty), after any sequence of
operations the sum of all debit entry amounts equals the sum of all credit
entry amounts and `verify_ledger_balance` returns `true`. -/
theorem C1_ledger_always_balanced (s : SysState) (ops : List Op)
    (h : verify_ledger_balance s.ledger = true) :
    verify_ledger_balance (runOps s ops).ledger = true ∧
    sumLeg (runOps s ops).ledger "debit" = sumLeg (runOps s ops).ledger "credit" := by
  have hb := runOps_balance s ops h
  exact ⟨hb, by simpa [verify_ledger_balance, decide_eq_true_eq] using hb⟩

/-- Witness for C1 at the seeded state and a sequence containing a
completed payment confirmation. -/
theorem C1_ledger_always_balanced_witness :
    verify_ledger_balance (runOps exState exOps).ledger = true ∧
    sumLeg (runOps exState exOps).ledger "debit" =
      sumLeg (runOps exState exOps).ledger "credit" :=
  C1_ledger_always_balanced exState exOps (by decide)

/-! ## Payment lifecycle (C2, C9) -/

/-- Decidable equality for route results. -/
instance instDecidableEqExcept {ε α : Type} [DecidableEq ε] [DecidableEq α] :
    DecidableEq (Except ε α)
  | .ok a, .ok b =>
    if h : a = b then isTrue (by rw [h]) else isFalse (by intro hh; cases hh; exact h rfl)
  | .error a, .error b =>
    if h : a = b then isTrue (by rw [h]) else isFalse (by intro hh; cases hh; exact h rfl)
  | .ok _, .error _ => isFalse (by intro hh; cases hh)
  | .error _, .ok _ => isFalse (by intro hh; cases hh)

/-- A pending transaction for concrete lifecycle runs. -/
def exPendingTx : Transaction :=
  { id := "tx1", intent_id := "i1", plan_id := "p1", merchant_id := "m1",
    amount := 30000, mode := "vouchers", status := "pending", rrn_stub := none }

/-- The seeded state plus one pending transaction. -/
def exTxState : SysState := { exState with transactions := [exPendingTx] }

/-- A confirm payload whose caller-supplied status is the string
`"pending"` (the pydantic model does not restrict `status`). -/
def exConfirmPending : PaymentConfirm :=
  { intent_id := "i1", status := "pending", rrn_stub := some "r1" }

/-- A confirm payload carrying status `"completed"`. -/
def exConfirmCompleted : PaymentConfirm :=
  { intent_id := "i1", status := "completed", rrn_stub := some "r2" }

/-- A confirm whose intent id matches no pending transaction fails 404. -/
theorem confirm_payment_404 (s : SysState) (d : PaymentConfirm) (u1 u2 : String)
    (h : s.transactions.find?
      (fun t => t.intent_id = d.intent_id && t.status = "pending") = none) :
    (confirm_payment s d u1 u2).2 =
      .error ⟨404, "Transaction not found or already processed"⟩ := by
  simp [confirm_payment, h]

/-- The transactions table after a successful confirm: the first pending
row with the intent id is overwritten with the caller-supplied status. -/
theorem confirm_payment_transactions (s : SysState) (d : PaymentConfirm)
    (u1 u2 : String) (tx : Transaction)
    (ht : s.transactions.find?
      (fun t => t.intent_id = d.intent_id && t.status = "pending") = some tx) :
    (confirm_payment s d u1 u2).1.transactions =
      updateFirst (fun t => t.intent_id = d.intent_id && t.status = "pending")
        (fun t => { t with status := d.status, rrn_stub := d.rrn_stub })
        s.transactions := by
  simp [confirm_payment, ht]

/-- After a successful confirm whose caller-supplied status is not
`"pending"`, any further confirm of the same intent id fails with 404,
provided intent ids are unique in the table (they carry a `unique=True`
column constraint). -/
theorem confirm_payment_twice_404 (s : SysState) (d d' : PaymentConfirm)
    (u1 u2 u3 u4 : String) (tx : Transaction)
    (ht : s.transactions.find?
      (fun t => t.intent_id = d.intent_id && t.status = "pending") = some tx)
    (hstatus : d.status ≠ "pending")
    (huniq : (s.transactions.filter (fun t => t.intent_id = d.intent_id)).length ≤ 1)
    (hid : d'.intent_id = d.intent_id) :
    (confirm_payment (confirm_payment s d u1 u2).1 d' u3 u4).2 =
      .error ⟨404, "Transaction not found or already processed"⟩ := by
  rcases updateFirst_split
      (fun t => t.intent_id = d.intent_id && t.status = "pending")
      (fun t => { t with status := d.status, rrn_stub := d.rrn_stub })
      s.transactions with ⟨hf, _⟩ | ⟨l₁, x, l₂, hl, hl₁, hx, hf, hu⟩
  · rw [ht] at hf; cases hf
  · have hxi : x.intent_id = d.intent_id ∧ x.status = "pending" := by
      simpa [decide_eq_true_eq] using hx
    have hxd : (decide (x.intent_id = d.intent_id)) = true := by simp [hxi.1]
    have hl₂ : ∀ y ∈ l₂, y.intent_id ≠ d.intent_id := by
      have hcount := huniq
      rw [hl] at hcount
      simp only [List.filter_append, List.filter_cons, hxd, if_true,
        List.length_append, List.length_cons] at hcount
      have hzero : (l₂.filter (fun t => t.intent_id = d.intent_id)).length = 0 := by
        omega
      intro y hy hiy
      have hmem : y ∈ l₂.filter (fun t => t.intent_id = d.intent_id) :=
        List.mem_filter.mpr ⟨hy, by simp [hiy]⟩
      rw [List.length_eq_zero] at hzero
      simp [hzero] at hmem
    have hs₁ : (confirm_payment s d u1 u2).1.transactions = l₁ ++
        { x with status := d.status, rrn_stub := d.rrn_stub } :: l₂ := by
      rw [confirm_payment_transactions s d u1 u2 tx ht, hu]
    have hnone : ((confirm_payment s d u1 u2).1.transactions).find?
        (fun t => t.intent_id = d'.intent_id && t.status = "pending") = none := by
      rw [hs₁, List.find?_eq_none]
      intro y hy
      rcases List.mem_append.mp hy with hy₁ | hy₂
      · have := hl₁ y hy₁
        simp only [hid]
        simpa using this
      · rcases List.mem_cons.mp hy₂ with hy₂ | hy₃
        · subst hy₂
          simp [hid, hstatus]
        · simp [hid, hl₂ y hy₃]
    exact confirm_payment_404 (confirm_payment s d u1 u2).1 d' u3 u4 hnone

/-- C2 counterexample: a confirm call whose caller-supplied `status` field
is the string `"pending"` succeeds, leaves the transaction in status
`"pending"` (not a terminal status), and a second confirm of the same
intent id succeeds again — refuting the claim that every successful
confirm leaves a terminal status and makes a second confirm fail. -/
theorem C2_counterexample :
    (confirm_payment exTxState exConfirmPending "L1" "L2").2 =
      .ok { transaction_id := "tx1", status := "pending", rrn_stub := some "r1" } ∧
    ((confirm_payment exTxState exConfirmPending "L1" "L2").1.transactions.map
      Transaction.status) = ["pending"] ∧
    (confirm_payment (confirm_payment exTxState exConfirmPending "L1" "L2").1
        exConfirmPending "L3" "L4").2 =
      .ok { transaction_id := "tx1", status := "pending", rrn_stub := some "r1" } := by
  refine ⟨by decide, by decide, by decide⟩

/-- C2 (amended): every transaction is created by `create_payment_intent`
in status `"pending"`; a confirm call finds a pending transaction by intent
id and overwrites its status with the caller-supplied string (it does not
validate that string); a confirm whose intent id matches no pending
transaction fails with 404; and whenever the caller-supplied status is not
`"pending"`, the transaction becomes effectively terminal: a second
confirm of the same intent id fails with 404 (assuming the unique intent-id
column constraint).  A confirm that supplies the string `"pending"` leaves
the transaction re-confirmable, which is the only deviation from the
original claim. -/
theorem C2_confirm_lifecycle :
    (∀ (s : SysState) (d : PaymentIntentCreate) (t r : Nat) (u : String)
        (res : IntentResult),
      (create_payment_intent s d t r u).2 = .ok res →
      res.transaction.status = "pending" ∧
      (create_payment_intent s d t r u).1.transactions =
        s.transactions ++ [res.transaction]) ∧
    (∀ (s : SysState) (d : PaymentConfirm) (u1 u2 : String),
      s.transactions.find?
          (fun t => t.intent_id = d.intent_id && t.status = "pending") = none →
      (confirm_payment s d u1 u2).2 =
        .error ⟨404, "Transaction not found or already processed"⟩) ∧
    (∀ (s : SysState) (d : PaymentConfirm) (u1 u2 : String) (tx : Transaction),
      s.transactions.find?
          (fun t => t.intent_id = d.intent_id && t.status = "pending") = some tx →
      (confirm_payment s d u1 u2).2 =
        .ok { transaction_id := tx.id, status := d.status, rrn_stub := d.rrn_stub } ∧
      (confirm_payment s d u1 u2).1.transactions =
        updateFirst (fun t => t.intent_id = d.intent_id && t.status = "pending")
          (fun t => { t with status := d.status, rrn_stub := d.rrn_stub })
          s.transactions) ∧
    (∀ (s : SysState) (d d' : PaymentConfirm) (u1 u2 u3 u4 : String)
        (tx : Transaction),
      s.transactions.find?
          (fun t => t.intent_id = d.intent_id && t.status = "pending") = some tx →
      d.status ≠ "pending" →
      (s.transactions.filter (fun t => t.intent_id = d.intent_id)).length ≤ 1 →
      d'.intent_id = d.intent_id →
      (confirm_payment (confirm_payment s d u1 u2).1 d' u3 u4).2 =
        .error ⟨404, "Transaction not found or already processed"⟩) := by
  refine ⟨?_, ?_, ?_, ?_⟩
  · intro s d t r u res hres
    cases hp : s.plans.find? (fun p => p.id = d.plan_id) with
    | none => simp [create_payment_intent, hp] at hres
    | some p =>
      cases hm : s.merchants.find? (fun m => m.id = d.merchant_id) with
      | none => simp [create_payment_intent, hp, hm] at hres
      | some m =>
        cases hdup : s.transactions.any (fun tx => tx.intent_id = genIntentId t r) with
        | true =>
          rw [create_payment_intent_dup s d t r u p m hp hm hdup] at hres
          simp at hres
        | false =>
          rw [create_payment_intent_fresh s d t r u p m hp hm hdup] at hres ⊢
          cases hres
          exact ⟨rfl, rfl⟩
  · intro s d u1 u2 hnone
    exact confirm_payment_404 s d u1 u2 hnone
  · intro s d u1 u2 tx ht
    exact ⟨by simp [confirm_payment, ht], confirm_payment_transactions s d u1 u2 tx ht⟩
  · intro s d d' u1 u2 u3 u4 tx ht hstatus huniq hid
    exact confirm_payment_twice_404 s d d' u1 u2 u3 u4 tx ht hstatus huniq hid

/-- Witness for C2 (amended): confirming the concrete pending transaction
as `"completed"` succeeds, and a second confirm of the same intent id
fails with 404. -/
theorem C2_confirm_lifecycle_witness :
    (confirm_payment exTxState exConfirmCompleted "L1" "L2").2 =
      .ok { transaction_id := "tx1", status := "completed", rrn_stub := some "r2" } ∧
    (confirm_payment (confirm_payment exTxState exConfirmCompleted "L1" "L2").1
        exConfirmCompleted "L3" "L4").2 =
      .error ⟨404, "Transaction not found or already processed"⟩ := by
  refine ⟨(C2_confirm_lifecycle.2.2.1 exTxState exConfirmCompleted "L1" "L2"
    exPendingTx (by decide)).1, ?_⟩
  exact C2_confirm_lifecycle.2.2.2 exTxState exConfirmCompleted exConfirmCompleted
    "L1" "L2" "L3" "L4" exPendingTx (by decide) (by decide) (by decide) (by decide)

/-- Core's fuelled digit printer agrees with `Nat.digits` whenever the fuel
covers the number: the characters are the base-`b` digits, most significant
first, prepended to the accumulator. -/
theorem toDigitsCore_eq_digits (b : Nat) (hb : 1 < b) :
    ∀ (f n : Nat) (ds : List Char), 0 < n → n < b ^ f →
      Nat.toDigitsCore b f n ds =
        ((Nat.digits b n).reverse.map Nat.digitChar) ++ ds := by
  intro f
  induction f with
  | zero =>
    intro n ds hn hlt
    simp only [pow_zero, Nat.lt_one_iff] at hlt
    omega
  | succ f ih =>
    intro n ds hn hlt
    have hdig : Nat.digits b n = n % b :: Nat.digits b (n / b) :=
      Nat.digits_def' hb hn
    by_cases hq : n / b = 0
    · have hz : Nat.digits b (n / b) = [] := by rw [hq]; simp
      simp only [Nat.toDigitsCore, hq, if_true]
      rw [hdig, hz]
      simp
    · have hdivlt : n / b < b ^ f := by
        rw [Nat.div_lt_iff_lt_mul (by omega : 0 < b)]
        calc n < b ^ (f + 1) := hlt
        _ = b ^ f * b := by rw [pow_succ]
      have hdivpos : 0 < n / b := Nat.pos_of_ne_zero hq
      simp only [Nat.toDigitsCore, hq, if_false]
      rw [ih (n / b) (Nat.digitChar (n % b) :: ds) hdivpos hdivlt, hdig]
      simp

/-- `Nat.repr` of a positive number spells its decimal digits, most
significant first. -/
theorem repr_eq_digits (n : Nat) (hn : 0 < n) :
    Nat.repr n = ((Nat.digits 10 n).reverse.map Nat.digitChar).asString := by
  have hlt : n < 10 ^ (n + 1) :=
    lt_of_lt_of_le (Nat.lt_pow_self (by norm_num) n)
      (Nat.pow_le_pow_right (by norm_num) (Nat.le_succ n))
  show (Nat.toDigitsCore 10 (n + 1) n []).asString = _
  rw [toDigitsCore_eq_digits 10 (by norm_num) (n + 1) n [] hn hlt]
  simp

/-- `Nat.digitChar` is injective below 10. -/
theorem digitChar_inj_lt10 :
    ∀ a < 10, ∀ c < 10, Nat.digitChar a = Nat.digitChar c → a = c := by decide

/-- Mapping `Nat.digitChar` over lists of decimal digits is injective. -/
theorem map_digitChar_inj : ∀ (l₁ l₂ : List Nat), (∀ x ∈ l₁, x < 10) →
    (∀ x ∈ l₂, x < 10) → l₁.map Nat.digitChar = l₂.map Nat.digitChar → l₁ = l₂ := by
  intro l₁
  induction l₁ with
  | nil =>
    intro l₂ _ _ h
    cases l₂ with
    | nil => rfl
    | cons c t => simp at h
  | cons a t₁ ih =>
    intro l₂ h₁ h₂ h
    cases l₂ with
    | nil => simp at h
    | cons c t₂ =>
      simp only [List.map_cons, List.cons.injEq] at h
      have ha : a = c := digitChar_inj_lt10 a (h₁ a (by simp)) c (h₂ c (by simp)) h.1
      have ht : t₁ = t₂ := ih t₂ (fun x hx => h₁ x (by simp [hx]))
        (fun x hx => h₂ x (by simp [hx])) h.2
      rw [ha, ht]

/-- The decimal spelling of a positive number differs from that of zero. -/
theorem repr_zero_ne_pos (n : Nat) (hn : 0 < n) : Nat.repr 0 ≠ Nat.repr n := by
  intro h
  rw [repr_eq_digits n hn] at h
  have hd : (["0".data.head!] : List Char) =
      (Nat.digits 10 n).reverse.map Nat.digitChar := by
    have := congrArg String.data h
    simpa using this
  cases hrev : (Nat.digits 10 n).reverse with
  | nil =>
    rw [hrev] at hd
    simp at hd
  | cons a t =>
    rw [hrev] at hd
    simp only [List.map_cons] at hd
    have hmem : a ∈ Nat.digits 10 n := by
      have : a ∈ (Nat.digits 10 n).reverse := by rw [hrev]; simp
      exact List.mem_reverse.mp this
    have ha10 : a < 10 := Nat.digits_lt_base (by norm_num) hmem
    have hone : ('0' :: ([] : List Char)) = Nat.digitChar a :: t.map Nat.digitChar := by
      simpa using hd
    have ha0 : a = 0 := by
      have hh : '0' = Nat.digitChar a := by
        have := congrArg (fun l => List.head! l) hone
        simpa using this
      have hz : Nat.digitChar 0 = Nat.digitChar a := by
        rw [show Nat.digitChar 0 = '0' from rfl]
        exact hh
      exact (digitChar_inj_lt10 0 (by norm_num) a ha10 hz).symm
    have htnil : t = [] := by
      have := congrArg (fun l => List.length l) hone
      simp at this
      cases t with
      | nil => rfl
      | cons x xs => simp at this
    have hdig : Nat.digits 10 n = [0] := by
      have hr : (Nat.digits 10 n).reverse = [0] := by rw [hrev, ha0, htnil]
      have h2 := congrArg List.reverse hr
      simpa using h2
    have : n = 0 := by
      have ho := Nat.ofDigits_digits 10 n
      rw [hdig] at ho
      simpa [Nat.ofDigits] using ho.symm
    omega

/-- `Nat.repr` is injective. -/
theorem nat_repr_inj {m n : Nat} (h : Nat.repr m = Nat.repr n) : m = n := by
  rcases Nat.eq_zero_or_pos m with hm | hm
  · rcases Nat.eq_zero_or_pos n with hn | hn
    · rw [hm, hn]
    · exact absurd (hm ▸ h) (repr_zero_ne_pos n hn)
  · rcases Nat.eq_zero_or_pos n with hn | hn
    · exact absurd (hn ▸ h.symm) (repr_zero_ne_pos m hm)
    · rw [repr_eq_digits m hm, repr_eq_digits n hn] at h
      have hd := congrArg String.data h
      simp only [List.asString] at hd
      have hrev : (Nat.digits 10 m).reverse = (Nat.digits 10 n).reverse := by
        apply map_digitChar_inj
        · intro x hx
          exact Nat.digits_lt_base (by norm_num) (List.mem_reverse.mp hx)
        · intro x hx
          exact Nat.digits_lt_base (by norm_num) (List.mem_reverse.mp hx)
        · exact hd
      have hdig : Nat.digits 10 m = Nat.digits 10 n := by
        have h2 := congrArg List.reverse hrev
        simpa using h2
      calc m = Nat.ofDigits 10 (Nat.digits 10 m) := (Nat.ofDigits_digits 10 m).symm
      _ = Nat.ofDigits 10 (Nat.digits 10 n) := by rw [hdig]
      _ = n := Nat.ofDigits_digits 10 n

/-- The decimal spelling of a `random.randint(1000, 9999)` draw has exactly
four characters. -/
theorem repr_len_four (r : Nat) (h1 : 1000 ≤ r) (h2 : r ≤ 9999) :
    (Nat.repr r).data.length = 4 := by
  rw [repr_eq_digits r (by omega)]
  have hlen : (Nat.digits 10 r).length = 4 := by
    rw [Nat.digits_len 10 r (by norm_num) (by omega)]
    have hlog : Nat.log 10 r = 3 :=
      Nat.log_eq_of_pow_le_of_lt_pow (by norm_num; omega) (by norm_num; omega)
    omega
  simp [List.asString, hlen]

/-- The generated intent id determines the epoch second and the random
draw: two generated ids coincide only when both inputs coincide. -/
theorem genIntentId_inj (t₁ r₁ t₂ r₂ : Nat)
    (ha : 1000 ≤ r₁) (hb : r₁ ≤ 9999) (hc : 1000 ≤ r₂) (hd : r₂ ≤ 9999)
    (h : genIntentId t₁ r₁ = genIntentId t₂ r₂) : t₁ = t₂ ∧ r₁ = r₂ := by
  have hdata := congrArg String.data h
  simp only [genIntentId, String.data_append] at hdata
  have hsplit := List.append_inj' hdata
    (by rw [repr_len_four r₁ ha hb, repr_len_four r₂ hc hd])
  have hr : r₁ = r₂ := nat_repr_inj (String.ext hsplit.2)
  have hleft := hsplit.1
  have hsplit2 := List.append_inj' hleft (by simp)
  have ht : t₁ = t₂ := by
    have := List.append_cancel_left hsplit2.1
    exact nat_repr_inj (String.ext this)
  exact ⟨ht, hr⟩

/-- Everything a successful intent creation guarantees: the returned id is
the generated one, the appended pending transaction carries it, and the
generated id was fresh (otherwise the unique column would have failed the
commit and no id would have been returned). -/
theorem create_payment_intent_ok_spec (s : SysState) (d : PaymentIntentCreate)
    (t r : Nat) (u : String) (res : IntentResult)
    (h : (create_payment_intent s d t r u).2 = .ok res) :
    res.intent_id = genIntentId t r ∧
    res.transaction.intent_id = genIntentId t r ∧
    (create_payment_intent s d t r u).1.transactions =
      s.transactions ++ [res.transaction] ∧
    s.transactions.any (fun tx => tx.intent_id = genIntentId t r) = false := by
  cases hp : s.plans.find? (fun p => p.id = d.plan_id) with
  | none => simp [create_payment_intent, hp] at h
  | some p =>
    cases hm : s.merchants.find? (fun m => m.id = d.merchant_id) with
    | none => simp [create_payment_intent, hp, hm] at h
    | some m =>
      cases hdup : s.transactions.any (fun tx => tx.intent_id = genIntentId t r) with
      | true =>
        rw [create_payment_intent_dup s d t r u p m hp hm hdup] at h
        simp at h
      | false =>
        rw [create_payment_intent_fresh s d t r u p m hp hm hdup] at h ⊢
        cases h
        exact ⟨rfl, rfl, rfl, rfl⟩

/-- `mint_vouchers` never touches the transactions table. -/
theorem mint_vouchers_transactions (s : SysState) (cu : String)
    (d : VoucherCreate) (us : Nat → String) :
    (mint_vouchers s cu d us).1.transactions = s.transactions := by
  cases hp : s.plans.find? (fun p => p.id = d.plan_id) with
  | none => simp [mint_vouchers, hp]
  | some p =>
    by_cases hc : p.created_by = cu <;> simp [mint_vouchers, hp, hc]

/-- `create_mandates` never touches the transactions table. -/
theorem create_mandates_transactions (s : SysState) (cu : String)
    (d : MandateCreate) (us : Nat → String) :
    (create_mandates s cu d us).1.transactions = s.transactions := by
  cases hp : s.plans.find? (fun p => p.id = d.plan_id) with
  | none => simp [create_mandates, hp]
  | some p =>
    by_cases hc : p.created_by = cu <;> simp [create_mandates, hp, hc]

/-- `redeem_vouchers` never touches the transactions table. -/
theorem redeem_vouchers_transactions (s : SysState) (vids : List String)
    (amts : List Int) (mid : Option String) (now : Int) (us : Nat → String) :
    (redeem_vouchers s vids amts mid now us).1.transactions = s.transactions := by
  by_cases hl : vids.length = amts.length
  · obtain ⟨vs', rds', red, fl⟩ :
        List Voucher × List VoucherRedemption × List RedeemOk × List RedeemFail :=
      redeem_loop now mid us 0 s.vouchers [] [] [] (vids.zip amts)
    simp [redeem_vouchers, hl]
  · simp [redeem_vouchers, hl]

/-- `execute_mandate` never touches the transactions table. -/
theorem execute_mandate_transactions (s : SysState) (mid : Option String)
    (amt : Option Int) (mcht : Option String) (succ : Bool) (u : String) :
    (execute_mandate s mid amt mcht succ u).1.transactions = s.transactions := by
  by_cases h0 : (pyFalsyStr mid || pyFalsyAmount amt) = true
  · simp [execute_mandate, h0]
  · cases hm : s.mandates.find?
        (fun m => m.id = mid.getD "" && m.state = "active") with
    | none => simp [execute_mandate, h0, hm]
    | some m =>
      by_cases hcap : amt.getD 0 > m.cap_amount <;>
        simp [execute_mandate, h0, hm, hcap]

/-- Rewriting one row through a function that preserves an attribute keeps
every value of that attribute present in the list. -/
theorem updateFirst_exists_pres (p : α → Bool) (f : α → α) (g : α → β)
    (hg : ∀ x, g (f x) = g x) (l : List α) (b : β)
    (h : ∃ x ∈ l, g x = b) : ∃ x ∈ updateFirst p f l, g x = b := by
  induction l with
  | nil => exact h
  | cons a l ih =>
    obtain ⟨x, hx, hgx⟩ := h
    by_cases hp : p a
    · have hu : updateFirst p f (a :: l) = f a :: l := by simp [updateFirst, hp]
      rw [hu]
      rcases List.mem_cons.mp hx with he | hm
      · subst he
        exact ⟨f x, List.mem_cons_self _ _, by rw [hg x]; exact hgx⟩
      · exact ⟨x, List.mem_cons_of_mem _ hm, hgx⟩
    · have hu : updateFirst p f (a :: l) = a :: updateFirst p f l := by
        simp [updateFirst, hp]
      rw [hu]
      rcases List.mem_cons.mp hx with he | hm
      · subst he
        exact ⟨x, List.mem_cons_self _ _, hgx⟩
      · obtain ⟨y, hy, hgy⟩ := ih ⟨x, hm, hgx⟩
        exact ⟨y, List.mem_cons_of_mem _ hy, hgy⟩

/-- No route ever removes an intent id from the transactions table: intent
creation appends (or leaves alone), confirm rewrites only `status` and
`rrn_stub`, and every other route leaves the table untouched. -/
theorem step_preserves_intent_ids (s : SysState) (op : Op) (i : String)
    (h : ∃ tx ∈ s.transactions, tx.intent_id = i) :
    ∃ tx ∈ (step s op).transactions, tx.intent_id = i := by
  cases op with
  | intent d t r u =>
    show ∃ tx ∈ (create_payment_intent s d t r u).1.transactions, tx.intent_id = i
    cases hp : s.plans.find? (fun p => p.id = d.plan_id) with
    | none => simpa [create_payment_intent, hp] using h
    | some p =>
      cases hm : s.merchants.find? (fun m => m.id = d.merchant_id) with
      | none => simpa [create_payment_intent, hp, hm] using h
      | some m =>
        cases hdup : s.transactions.any (fun tx => tx.intent_id = genIntentId t r) with
        | true =>
          rw [create_payment_intent_dup s d t r u p m hp hm hdup]
          exact h
        | false =>
          rw [create_payment_intent_fresh s d t r u p m hp hm hdup]
          obtain ⟨tx, htx, hid⟩ := h
          exact ⟨tx, List.mem_append_left _ htx, hid⟩
  | confirm d u1 u2 =>
    show ∃ tx ∈ (confirm_payment s d u1 u2).1.transactions, tx.intent_id = i
    cases ht : s.transactions.find?
        (fun tx => tx.intent_id = d.intent_id && tx.status = "pending") with
    | none => simpa [confirm_payment, ht] using h
    | some tx0 =>
      rw [confirm_payment_transactions s d u1 u2 tx0 ht]
      exact updateFirst_exists_pres
        (fun t => t.intent_id = d.intent_id && t.status = "pending")
        (fun t => { t with status := d.status, rrn_stub := d.rrn_stub })
        (fun tx => tx.intent_id) (fun x => rfl) s.transactions i h
  | mint cu d us => rw [step, mint_vouchers_transactions]; exact h
  | redeem vids amts mid now us => rw [step, redeem_vouchers_transactions]; exact h
  | createMandates cu d us => rw [step, create_mandates_transactions]; exact h
  | execute mid amt mcht succ u => rw [step, execute_mandate_transactions]; exact h

/-- Intent ids persist through any sequence of route invocations. -/
theorem runOps_preserves_intent_ids (ops : List Op) (s : SysState) (i : String)
    (h : ∃ tx ∈ s.transactions, tx.intent_id = i) :
    ∃ tx ∈ (runOps s ops).transactions, tx.intent_id = i := by
  induction ops generalizing s with
  | nil => exact h
  | cons op rest ih => exact ih (step s op) (step_preserves_intent_ids s op i h)

/-- A first intent payload for concrete runs. -/
def exIntentDataA : PaymentIntentCreate :=
  { amount := 30000, merchant_id := "m1", plan_id := "p1", mode := "vouchers" }

/-- A second, different intent payload. -/
def exIntentDataB : PaymentIntentCreate :=
  { amount := 15000, merchant_id := "m1", plan_id := "p1", mode := "mandates" }

/-- The concrete result of the first intent call. -/
def exIntentResA : IntentResult :=
  { intent_id := "intent_1000_1234",
    transaction :=
      { id := "txA", intent_id := "intent_1000_1234", plan_id := "p1",
        merchant_id := "m1", amount := 30000, mode := "vouchers",
        status := "pending", rrn_stub := none },
    guardrail_required := true }

/-- The concrete result of a successful call one draw later. -/
def exIntentResC : IntentResult :=
  { intent_id := "intent_1000_1235",
    transaction :=
      { id := "txC", intent_id := "intent_1000_1235", plan_id := "p1",
        merchant_id := "m1", amount := 15000, mode := "mandates",
        status := "pending", rrn_stub := none },
    guardrail_required := false }

/-- C9: the returned intent ids of any two distinct `createIntent` calls
of one run differ.  The first successful call persists a transaction
carrying its id, that id survives every later operation (no route deletes
transactions and confirm rewrites only status and settlement reference),
and a later call that generates the same id hits the `unique=True`
`intent_id` column at `db.commit()`, fails with a 500, and returns no id —
so whenever both calls return ids, the ids differ. -/
theorem C9_returned_intent_ids_differ (s : SysState)
    (d₁ d₂ : PaymentIntentCreate) (t₁ r₁ t₂ r₂ : Nat) (u₁ u₂ : String)
    (res₁ res₂ : IntentResult) (ops : List Op)
    (h₁ : (create_payment_intent s d₁ t₁ r₁ u₁).2 = .ok res₁)
    (h₂ : (create_payment_intent
        (runOps (create_payment_intent s d₁ t₁ r₁ u₁).1 ops) d₂ t₂ r₂ u₂).2 =
      .ok res₂) :
    res₁.intent_id ≠ res₂.intent_id := by
  obtain ⟨hid₁, htxid₁, htrans₁, _⟩ :=
    create_payment_intent_ok_spec s d₁ t₁ r₁ u₁ res₁ h₁
  obtain ⟨hid₂, _, _, hfresh₂⟩ :=
    create_payment_intent_ok_spec _ d₂ t₂ r₂ u₂ res₂ h₂
  intro heq
  have hmem : ∃ tx ∈ (create_payment_intent s d₁ t₁ r₁ u₁).1.transactions,
      tx.intent_id = genIntentId t₁ r₁ := by
    rw [htrans₁]
    exact ⟨res₁.transaction,
      List.mem_append_right _ (List.mem_cons_self _ _), htxid₁⟩
  obtain ⟨tx, htx, hidtx⟩ := runOps_preserves_intent_ids ops _ _ hmem
  have hgen : genIntentId t₁ r₁ = genIntentId t₂ r₂ := by
    rw [← hid₁, ← hid₂]
    exact heq
  have hany : (runOps (create_payment_intent s d₁ t₁ r₁ u₁).1 ops).transactions.any
      (fun tx => tx.intent_id = genIntentId t₂ r₂) = true :=
    List.any_eq_true.mpr ⟨tx, htx, by simp [← hgen, hidtx]⟩
  rw [hany] at hfresh₂
  cases hfresh₂

/-- Witness for C9: the call at (second 1000, draw 1234) returns
`intent_1000_1234`; the next successful call, at draw 1235, returns
`intent_1000_1235` — a different id. -/
theorem C9_returned_intent_ids_differ_witness :
    exIntentResA.intent_id ≠ exIntentResC.intent_id :=
  C9_returned_intent_ids_differ exState exIntentDataA exIntentDataB
    1000 1234 1000 1235 "txA" "txC" exIntentResA exIntentResC []
    (by decide) (by decide)
/-! ## Mandate execution (C4, C5) -/

/-- Branch lemma: falsy mandate id or falsy amount fails validation. -/
theorem execute_mandate_validation (s : SysState) (mid : Option String)
    (amt : Option Int) (mcht : Option String) (succ : Bool) (u : String)
    (h : (pyFalsyStr mid || pyFalsyAmount amt) = true) :
    execute_mandate s mid amt mcht succ u =
      (s, .error ⟨400, "Mandate ID and amount required"⟩) := by
  simp [execute_mandate, h]

/-- Branch lemma: no active mandate with the id fails 404. -/
theorem execute_mandate_notFound (s : SysState) (mid : Option String)
    (amt : Option Int) (mcht : Option String) (succ : Bool) (u : String)
    (h0 : (pyFalsyStr mid || pyFalsyAmount amt) = false)
    (h : s.mandates.find?
      (fun m => m.id = mid.getD "" && m.state = "active") = none) :
    execute_mandate s mid amt mcht succ u =
      (s, .error ⟨404, "Mandate not found or inactive"⟩) := by
  simp [execute_mandate, h0, h]

/-- Branch lemma: an amount above the remaining cap fails 400. -/
theorem execute_mandate_capExceeded (s : SysState) (mid : Option String)
    (amt : Option Int) (mcht : Option String) (succ : Bool) (u : String)
    (m : Mandate)
    (h0 : (pyFalsyStr mid || pyFalsyAmount amt) = false)
    (hm : s.mandates.find?
      (fun x => x.id = mid.getD "" && x.state = "active") = some m)
    (hcap : amt.getD 0 > m.cap_amount) :
    execute_mandate s mid amt mcht succ u =
      (s, .error ⟨400, "Amount exceeds mandate cap"⟩) := by
  simp [execute_mandate, h0, hm, hcap]

/-- Branch lemma: a failed simulated outcome appends a `"failed"` execution
record and leaves the mandate table unchanged. -/
theorem execute_mandate_failure (s : SysState) (mid : Option String)
    (amt : Option Int) (mcht : Option String) (u : String) (m : Mandate)
    (h0 : (pyFalsyStr mid || pyFalsyAmount amt) = false)
    (hm : s.mandates.find?
      (fun x => x.id = mid.getD "" && x.state = "active") = some m)
    (hcap : ¬ amt.getD 0 > m.cap_amount) :
    execute_mandate s mid amt mcht false u =
      ({ s with executions := s.executions ++
          [⟨u, mid.getD "", amt.getD 0, mcht, "failed"⟩] },
       .ok ⟨mid.getD "", amt.getD 0, "failed", m.cap_amount, u⟩) := by
  simp [execute_mandate, h0, hm, hcap]

/-- Branch lemma: a successful simulated outcome appends a `"success"`
execution record and rewrites exactly the found mandate row, decrementing
its cap and expiring it when the new cap is ≤ 0. -/
theorem execute_mandate_success (s : SysState) (mid : Option String)
    (amt : Option Int) (mcht : Option String) (u : String) (m : Mandate)
    (h0 : (pyFalsyStr mid || pyFalsyAmount amt) = false)
    (hm : s.mandates.find?
      (fun x => x.id = mid.getD "" && x.state = "active") = some m)
    (hcap : ¬ amt.getD 0 > m.cap_amount) :
    ∃ l₁ l₂, s.mandates = l₁ ++ m :: l₂ ∧
      (∀ y ∈ l₁, (y.id = mid.getD "" && y.state = "active") = false) ∧
      execute_mandate s mid amt mcht true u =
        ({ s with
            mandates := l₁ ++
              ({ m with
                  cap_amount := m.cap_amount - amt.getD 0,
                  state := if m.cap_amount - amt.getD 0 ≤ 0 then "expired"
                           else m.state }) :: l₂,
            executions := s.executions ++
              [⟨u, mid.getD "", amt.getD 0, mcht, "success"⟩] },
         .ok ⟨mid.getD "", amt.getD 0, "success", m.cap_amount - amt.getD 0, u⟩) := by
  rcases updateFirst_split (fun x => x.id = mid.getD "" && x.state = "active")
      (fun x =>
        { x with cap_amount := x.cap_amount - amt.getD 0,
                 state := if x.cap_amount - amt.getD 0 ≤ 0 then "expired"
                          else x.state })
      s.mandates with ⟨hf, _⟩ | ⟨l₁, x, l₂, hl, hl₁, hx, hf, hu⟩
  · rw [hm] at hf; cases hf
  · have hxm : x = m := by
      rw [hm] at hf
      injection hf with hfe
      exact hfe.symm
    subst hxm
    refine ⟨l₁, l₂, hl, hl₁, ?_⟩
    have hu' := hu
    simp only [sub_nonpos] at hu'
    simp [execute_mandate, h0, hm, hcap, hu']

/-- Rewriting the first `p`-match through an id-preserving function `f`
cannot invent rows: whatever an id-lookup finds afterwards is either the
row the lookup found before, or the image under `f` of the row that `p`
found before. -/
theorem find?_updateFirst (p q : α → Bool) (f : α → α)
    (hq : ∀ y, q (f y) = q y) (l : List α) (m' : α)
    (h : (updateFirst p f l).find? q = some m') :
    ∃ m, l.find? q = some m ∧ (m' = m ∨ (l.find? p = some m ∧ m' = f m)) := by
  induction l with
  | nil => simp [updateFirst] at h
  | cons a l ih =>
    by_cases hp : p a
    · simp only [updateFirst, hp, if_true] at h
      by_cases hqa : q (f a) = true
      · have hma : m' = f a := by
          rw [List.find?_cons_of_pos _ hqa] at h
          injection h.symm
        have hqa' : q a = true := by rw [← hq a]; exact hqa
        exact ⟨a, List.find?_cons_of_pos _ hqa',
          Or.inr ⟨List.find?_cons_of_pos _ hp, hma⟩⟩
      · have hqn : ¬ q (f a) = true := hqa
        have hqa' : ¬ q a = true := by rw [← hq a]; exact hqn
        rw [List.find?_cons_of_neg _ hqn] at h
        exact ⟨m', by rw [List.find?_cons_of_neg _ hqa']; exact h, Or.inl rfl⟩
    · rw [show updateFirst p f (a :: l) = a :: updateFirst p f l by
        simp [updateFirst, hp]] at h
      by_cases hqa : q a = true
      · have hma : m' = a := by
          rw [List.find?_cons_of_pos _ hqa] at h
          injection h.symm
        exact ⟨a, List.find?_cons_of_pos _ hqa, Or.inl hma⟩
      · rw [List.find?_cons_of_neg _ hqa] at h
        obtain ⟨m, hmf, hor⟩ := ih h
        refine ⟨m, by rw [List.find?_cons_of_neg _ hqa]; exact hmf, ?_⟩
        rcases hor with h1 | ⟨h2, h3⟩
        · exact Or.inl h1
        · exact Or.inr ⟨by rw [List.find?_cons_of_neg _ hp]; exact h2, h3⟩

/-- An active mandate of cap 100.00 for concrete runs. -/
def exMandate : Mandate :=
  { id := "md1", plan_id := "p1", member_user_id := "u1", cap_amount := 10000,
    valid_from := 0, valid_to := 1000000, state := "active" }

/-- The seeded state plus one active mandate. -/
def exMandState : SysState := { exState with mandates := [exMandate] }

/-- C4 counterexample: an execute call with amount 0 on an existing active
mandate is rejected with the 400 validation error (`not amount` is true in
Python for 0) before any lookup, and no execution record is appended —
whereas the claim admits only NotFound and CapExceeded as failures and
promises a record in every other case (0 does not exceed the cap 10000). -/
theorem C4_counterexample :
    execute_mandate exMandState (some "md1") (some 0) (some "m1") true "e1" =
      (exMandState, .error ⟨400, "Mandate ID and amount required"⟩) ∧
    (execute_mandate exMandState (some "md1") (some 0) (some "m1") true
      "e1").1.executions = [] := by
  exact ⟨by decide, by decide⟩

/-- C4 (amended): a missing or empty mandate id, or a missing or zero
amount, fails 400 validation before any lookup; otherwise execute fails
404 when no active mandate carries the id, fails 400 CapExceeded when the
amount exceeds the remaining cap, and otherwise appends exactly one
execution record carrying the simulated outcome; only a success outcome
decreases the cap, expiring the mandate exactly when the new cap is 0,
while a failed outcome leaves the mandate untouched; the result reports
mandate id, amount, outcome, remaining cap and execution id. -/
theorem C4_execute_mandate_contract :
    (∀ (s : SysState) (mid : Option String) (amt : Option Int)
        (mcht : Option String) (succ : Bool) (u : String),
      (pyFalsyStr mid || pyFalsyAmount amt) = true →
      execute_mandate s mid amt mcht succ u =
        (s, .error ⟨400, "Mandate ID and amount required"⟩)) ∧
    (∀ (s : SysState) (mid : Option String) (amt : Option Int)
        (mcht : Option String) (succ : Bool) (u : String),
      (pyFalsyStr mid || pyFalsyAmount amt) = false →
      s.mandates.find? (fun m => m.id = mid.getD "" && m.state = "active") = none →
      execute_mandate s mid amt mcht succ u =
        (s, .error ⟨404, "Mandate not found or inactive"⟩)) ∧
    (∀ (s : SysState) (mid : Option String) (amt : Option Int)
        (mcht : Option String) (succ : Bool) (u : String) (m : Mandate),
      (pyFalsyStr mid || pyFalsyAmount amt) = false →
      s.mandates.find? (fun x => x.id = mid.getD "" && x.state = "active") = some m →
      amt.getD 0 > m.cap_amount →
      execute_mandate s mid amt mcht succ u =
        (s, .error ⟨400, "Amount exceeds mandate cap"⟩)) ∧
    (∀ (s : SysState) (mid : Option String) (amt : Option Int)
        (mcht : Option String) (u : String) (m : Mandate),
      (pyFalsyStr mid || pyFalsyAmount amt) = false →
      s.mandates.find? (fun x => x.id = mid.getD "" && x.state = "active") = some m →
      ¬ amt.getD 0 > m.cap_amount →
      execute_mandate s mid amt mcht false u =
        ({ s with executions := s.executions ++
            [⟨u, mid.getD "", amt.getD 0, mcht, "failed"⟩] },
         .ok ⟨mid.getD "", amt.getD 0, "failed", m.cap_amount, u⟩)) ∧
    (∀ (s : SysState) (mid : Option String) (amt : Option Int)
        (mcht : Option String) (u : String) (m : Mandate),
      (pyFalsyStr mid || pyFalsyAmount amt) = false →
      s.mandates.find? (fun x => x.id = mid.getD "" && x.state = "active") = some m →
      ¬ amt.getD 0 > m.cap_amount →
      ∃ l₁ l₂, s.mandates = l₁ ++ m :: l₂ ∧
        execute_mandate s mid amt mcht true u =
          ({ s with
              mandates := l₁ ++
                ({ m with
                    cap_amount := m.cap_amount - amt.getD 0,
                    state := if m.cap_amount - amt.getD 0 = 0 then "expired"
                             else "active" }) :: l₂,
              executions := s.executions ++
                [⟨u, mid.getD "", amt.getD 0, mcht, "success"⟩] },
           .ok ⟨mid.getD "", amt.getD 0, "success",
                m.cap_amount - amt.getD 0, u⟩)) := by
  refine ⟨execute_mandate_validation, execute_mandate_notFound,
    ?_, execute_mandate_failure, ?_⟩
  · intro s mid amt mcht succ u m h0 hm hcap
    exact execute_mandate_capExceeded s mid amt mcht succ u m h0 hm hcap
  · intro s mid amt mcht u m h0 hm hcap
    obtain ⟨l₁, l₂, hl, hl₁, heq⟩ := execute_mandate_success s mid amt mcht u m h0 hm hcap
    refine ⟨l₁, l₂, hl, ?_⟩
    have hms : m.state = "active" := by
      have := List.find?_some hm
      simp only [Bool.and_eq_true, decide_eq_true_eq] at this
      exact this.2
    have hgoalstate :
        (if m.cap_amount - amt.getD 0 ≤ 0 then "expired" else m.state) =
          (if m.cap_amount - amt.getD 0 = 0 then "expired" else "active") := by
      rw [hms]
      exact if_congr ⟨fun h => by omega, fun h => by omega⟩ rfl rfl
    rw [heq, hgoalstate]

/-- Witness for C4 (amended): a failed simulated outcome on the concrete
mandate appends a `"failed"` record and leaves the cap at 10000. -/
theorem C4_execute_mandate_contract_witness :
    execute_mandate exMandState (some "md1") (some 2500) (some "m1") false "e1" =
      ({ exMandState with executions := exMandState.executions ++
          [⟨"e1", "md1", 2500, some "m1", "failed"⟩] },
       .ok ⟨"md1", 2500, "failed", 10000, "e1"⟩) := by
  have h := C4_execute_mandate_contract.2.2.2.1 exMandState (some "md1")
    (some 2500) (some "m1") "e1" exMandate (by decide) (by decide) (by decide)
  exact h

/-- One call to `POST /api/mandates/execute`, with its simulated outcome
and fresh execution-record uuid. -/
structure ExecCall where
  mandate_id : Option String
  amount : Option Int
  merchant_id : Option String
  success : Bool
  exec_uuid : String
  deriving Repr, DecidableEq

/-- State transition of one execute call. -/
def execStep (s : SysState) (c : ExecCall) : SysState :=
  (execute_mandate s c.mandate_id c.amount c.merchant_id c.success c.exec_uuid).1

/-- Run a sequence of execute calls. -/
def runExecs (s : SysState) (calls : List ExecCall) : SysState :=
  calls.foldl execStep s

/-- The remaining cap of the mandate a plain id-lookup finds. -/
def capOf (s : SysState) (x : String) : Option Int :=
  (s.mandates.find? (fun m => m.id = x)).map (fun m => m.cap_amount)

/-- An id-lookup over a list whose middle element was replaced by a row
with the same id finds either an untouched row or the replacement. -/
theorem find?_id_split (l₁ l₂ : List Mandate) (m r : Mandate) (x : String)
    (hid : r.id = m.id) (a' : Int)
    (h : ((l₁ ++ r :: l₂).find? (fun mm => mm.id = x)).map
      (fun mm => mm.cap_amount) = some a') :
    ∃ a₀, ((l₁ ++ m :: l₂).find? (fun mm => mm.id = x)).map
        (fun mm => mm.cap_amount) = some a₀ ∧
      (a' = a₀ ∨ (a₀ = m.cap_amount ∧ a' = r.cap_amount)) := by
  rw [List.find?_append] at h ⊢
  cases hf₁ : l₁.find? (fun mm => mm.id = x) with
  | some y =>
    rw [hf₁, Option.or_some] at h
    rw [Option.or_some]
    exact ⟨a', h, Or.inl rfl⟩
  | none =>
    rw [hf₁, Option.none_or] at h
    rw [Option.none_or]
    by_cases hrx : r.id = x
    · have hmx : m.id = x := by rw [← hid]; exact hrx
      rw [List.find?_cons_of_pos _ (by simp [hrx])] at h
      rw [List.find?_cons_of_pos _ (by simp [hmx])]
      simp only [Option.map_some'] at h
      refine ⟨m.cap_amount, by simp, Or.inr ⟨rfl, ?_⟩⟩
      injection h with hh
      exact hh.symm
    · have hmx : ¬ m.id = x := by rw [← hid]; exact hrx
      rw [List.find?_cons_of_neg _ (by simp [hrx])] at h
      rw [List.find?_cons_of_neg _ (by simp [hmx])]
      exact ⟨a', h, Or.inl rfl⟩

/-- One execute call with a positive amount never raises any mandate's
remaining cap, and leaves no cap negative that it could have produced. -/
theorem execStep_capOf (s : SysState) (c : ExecCall) (x : String)
    (hpos : c.amount.all (fun a => decide (0 < a)) = true)
    (a' : Int) (h : capOf (execStep s c) x = some a') :
    ∃ a₀, capOf s x = some a₀ ∧ a' ≤ a₀ ∧ (0 ≤ a₀ → 0 ≤ a') := by
  rcases c with ⟨mid, amt, mcht, succ, u⟩
  simp only [execStep] at h
  cases h0 : (pyFalsyStr mid || pyFalsyAmount amt) with
  | true =>
    rw [execute_mandate_validation s mid amt mcht succ u h0] at h
    exact ⟨a', h, le_refl _, fun hh => hh⟩
  | false =>
    cases hm : s.mandates.find?
        (fun m => m.id = mid.getD "" && m.state = "active") with
    | none =>
      rw [execute_mandate_notFound s mid amt mcht succ u h0 hm] at h
      exact ⟨a', h, le_refl _, fun hh => hh⟩
    | some m =>
      by_cases hcap : amt.getD 0 > m.cap_amount
      · rw [execute_mandate_capExceeded s mid amt mcht succ u m h0 hm hcap] at h
        exact ⟨a', h, le_refl _, fun hh => hh⟩
      · have hapos : 0 < amt.getD 0 := by
          cases amt with
          | none => simp [pyFalsyAmount] at h0
          | some a => simpa [Option.all] using hpos
        cases succ with
        | false =>
          rw [execute_mandate_failure s mid amt mcht u m h0 hm hcap] at h
          exact ⟨a', h, le_refl _, fun hh => hh⟩
        | true =>
          obtain ⟨l₁, l₂, hl, hl₁, heq⟩ :=
            execute_mandate_success s mid amt mcht u m h0 hm hcap
          rw [heq] at h
          obtain ⟨a₀, ha₀, hor⟩ := find?_id_split l₁ l₂ m
            { m with cap_amount := m.cap_amount - amt.getD 0,
                     state := if m.cap_amount - amt.getD 0 ≤ 0 then "expired"
                              else m.state }
            x rfl a' h
          refine ⟨a₀, ?_, ?_, ?_⟩
          · simp only [capOf]
            rw [hl]
            exact ha₀
          · rcases hor with he | ⟨h1, h2⟩
            · exact he ▸ le_refl _
            · have h2' : a' = m.cap_amount - amt.getD 0 := h2
              omega
          · rcases hor with he | ⟨h1, h2⟩
            · exact fun hh => he ▸ hh
            · have h2' : a' = m.cap_amount - amt.getD 0 := h2
              intro _
              omega

/-- Over any sequence of positive-amount execute calls, each mandate's cap
is non-increasing and stays non-negative. -/
theorem runExecs_capOf (calls : List ExecCall) (s : SysState) (x : String)
    (hpos : ∀ c ∈ calls, c.amount.all (fun a => decide (0 < a)) = true)
    (a' : Int) (h : capOf (runExecs s calls) x = some a') :
    ∃ a₀, capOf s x = some a₀ ∧ a' ≤ a₀ ∧ (0 ≤ a₀ → 0 ≤ a') := by
  induction calls generalizing s with
  | nil => exact ⟨a', h, le_refl _, fun hh => hh⟩
  | cons c rest ih =>
    have h1 : runExecs s (c :: rest) = runExecs (execStep s c) rest := rfl
    rw [h1] at h
    obtain ⟨a₁, ha₁, hle₁, hnn₁⟩ :=
      ih (execStep s c) (fun d hd => hpos d (by simp [hd])) h
    obtain ⟨a₀, ha₀, hle₀, hnn₀⟩ := execStep_capOf s c x (hpos c (by simp)) a₁ ha₁
    exact ⟨a₀, ha₀, le_trans hle₁ hle₀, fun hh => hnn₁ (hnn₀ hh)⟩

/-- C5 counterexample: executing a negative amount (-50.00) against the
active mandate of cap 100.00 succeeds (a negative number passes both the
`not amount` and the `amount > cap_amount` checks) and RAISES the
remaining cap to 150.00 — refuting "the remaining cap is non-increasing
over time". -/
theorem C5_counterexample :
    (execute_mandate exMandState (some "md1") (some (-5000)) (some "m1") true
      "e1").2 = .ok ⟨"md1", -5000, "success", 15000, "e1"⟩ ∧
    ((execute_mandate exMandState (some "md1") (some (-5000)) (some "m1") true
      "e1").1.mandates.map Mandate.cap_amount) = [15000] ∧
    capOf exMandState "md1" = some 10000 := by
  exact ⟨by decide, by decide, by decide⟩

/-- C5 (amended): restricted to execute calls whose amounts are positive
(every well-formed debit), a mandate's remaining cap is non-increasing
across any call sequence and never becomes negative; a successful
positive-amount execution rewrites exactly the mandate it found, and the
rewritten row is `expired` exactly when its new cap is 0; and a mandate
none of whose rows is `active` (in particular an expired one) accepts no
further executions — each call fails 404 and changes nothing.  A negative
amount, which the code accepts, can raise the cap, which is the only
deviation from the original claim. -/
theorem C5_cap_monotonic_nonnegative :
    (∀ (calls : List ExecCall) (s : SysState) (x : String),
      (∀ c ∈ calls, c.amount.all (fun a => decide (0 < a)) = true) →
      ∀ a' : Int, capOf (runExecs s calls) x = some a' →
        ∃ a₀, capOf s x = some a₀ ∧ a' ≤ a₀ ∧ (0 ≤ a₀ → 0 ≤ a')) ∧
    (∀ (s : SysState) (mid : Option String) (amt : Option Int)
        (mcht : Option String) (u : String) (m : Mandate),
      (pyFalsyStr mid || pyFalsyAmount amt) = false →
      s.mandates.find? (fun x => x.id = mid.getD "" && x.state = "active") = some m →
      ¬ amt.getD 0 > m.cap_amount → 0 < amt.getD 0 →
      ∃ l₁ l₂ m', s.mandates = l₁ ++ m :: l₂ ∧
        (execute_mandate s mid amt mcht true u).1.mandates = l₁ ++ m' :: l₂ ∧
        m'.cap_amount = m.cap_amount - amt.getD 0 ∧
        0 ≤ m'.cap_amount ∧ m'.cap_amount < m.cap_amount ∧
        (m'.state = "expired" ↔ m'.cap_amount = 0)) ∧
    (∀ (s : SysState) (mid : Option String) (amt : Option Int)
        (mcht : Option String) (succ : Bool) (u : String),
      (pyFalsyStr mid || pyFalsyAmount amt) = false →
      (∀ m ∈ s.mandates, m.id = mid.getD "" → m.state ≠ "active") →
      execute_mandate s mid amt mcht succ u =
        (s, .error ⟨404, "Mandate not found or inactive"⟩)) := by
  refine ⟨runExecs_capOf, ?_, ?_⟩
  · intro s mid amt mcht u m h0 hm hcap hpos
    obtain ⟨l₁, l₂, hl, hl₁, heq⟩ := execute_mandate_success s mid amt mcht u m h0 hm hcap
    refine ⟨l₁, l₂,
      { m with cap_amount := m.cap_amount - amt.getD 0,
               state := if m.cap_amount - amt.getD 0 ≤ 0 then "expired"
                        else m.state },
      hl, by rw [heq], rfl, by simp; omega, by simp; omega, ?_⟩
    have hms : m.state = "active" := by
      have := List.find?_some hm
      simp only [Bool.and_eq_true, decide_eq_true_eq] at this
      exact this.2
    have hiff : ((if m.cap_amount - amt.getD 0 ≤ 0 then "expired" else m.state)
        = "expired") ↔ m.cap_amount - amt.getD 0 = 0 := by
      by_cases hc : m.cap_amount - amt.getD 0 ≤ 0
      · rw [if_pos hc]
        simp
        omega
      · rw [if_neg hc, hms]
        constructor
        · intro hh
          exact absurd hh (by decide)
        · intro hh
          exfalso
          omega
    exact hiff
  · intro s mid amt mcht succ u h0 hinactive
    have hnone : s.mandates.find?
        (fun m => m.id = mid.getD "" && m.state = "active") = none := by
      rw [List.find?_eq_none]
      intro m hmem
      simp only [Bool.and_eq_true, decide_eq_true_eq, not_and]
      intro hid
      exact fun hst => hinactive m hmem hid hst
    exact execute_mandate_notFound s mid amt mcht succ u h0 hnone

/-- Two positive execute calls that drain the concrete mandate to 0. -/
def exExecCalls : List ExecCall :=
  [ { mandate_id := some "md1", amount := some 4000, merchant_id := some "m1",
      success := true, exec_uuid := "e1" },
    { mandate_id := some "md1", amount := some 6000, merchant_id := none,
      success := true, exec_uuid := "e2" } ]

/-- Witness for C5 (amended): after draining the cap 10000 with positive
executes of 4000 and 6000, the cap reads 0, and the theorem recovers the
initial cap 10000 with 0 ≤ 10000 and the final cap non-negative. -/
theorem C5_cap_monotonic_nonnegative_witness :
    ∃ a₀, capOf exMandState "md1" = some a₀ ∧ (0 : Int) ≤ a₀ ∧
      (0 ≤ a₀ → (0 : Int) ≤ 0) :=
  C5_cap_monotonic_nonnegative.1 exExecCalls exMandState "md1"
    (by decide) 0 (by decide)

/-! ## Voucher redemption (C3, C8, C10) -/

/-- `redeem_loop` started with empty result accumulators, as
`redeem_vouchers` starts it (`redeemed = []`, `failed = []`). -/
def redeemLegs (now : Int) (mid : Option String) (uuids : Nat → String)
    (k : Nat) (vs : List Voucher) (legs : List (String × Int)) :
    List Voucher × List VoucherRedemption × List RedeemOk × List RedeemFail :=
  redeem_loop now mid uuids k vs [] [] [] legs

/-- The in-place mutation a successful leg applies to the voucher table:
debit the first active row with the id and mark it redeemed when the new
balance is ≤ 0 (`routes/vouchers.py`, lines 120-122). -/
def redeemUpd (vid : String) (a : Int) (vs : List Voucher) : List Voucher :=
  updateFirst (fun w => w.id = vid && w.state = "active")
    (fun w =>
      let b := w.amount - a
      { w with amount := b, state := if b ≤ 0 then "redeemed" else w.state }) vs

/-- The failure descriptor of a leg whose voucher is absent or inactive. -/
def failNotFound (vid : String) : RedeemFail :=
  { voucher_id := vid, reason := "Voucher not found or inactive" }

/-- The failure descriptor of a leg whose voucher is expired. -/
def failExpired (vid : String) : RedeemFail :=
  { voucher_id := vid, reason := "Voucher expired" }

/-- The failure descriptor of a leg asking more than the balance. -/
def failBalance (vid : String) : RedeemFail :=
  { voucher_id := vid, reason := "Insufficient voucher balance" }

/-- The audit record of a successful leg. -/
def mkRedemption (uuids : Nat → String) (k : Nat) (vid : String) (a : Int)
    (mid : Option String) : VoucherRedemption :=
  { id := uuids k, voucher_id := vid, amount := a, merchant_id := mid }

/-- The success descriptor of a leg on a voucher of prior balance `b`. -/
def mkRedeemOk (vid : String) (a b : Int) : RedeemOk :=
  { voucher_id := vid, amount := a, remaining := b - a }

/-- The loop accumulators only collect: a run with arbitrary accumulators
is the run with empty accumulators, appended. -/
theorem redeem_loop_acc (now : Int) (mid : Option String) (uuids : Nat → String)
    (legs : List (String × Int)) :
    ∀ (k : Nat) (vs : List Voucher) (rds : List VoucherRedemption)
      (red : List RedeemOk) (fl : List RedeemFail),
      redeem_loop now mid uuids k vs rds red fl legs =
        ((redeem_loop now mid uuids k vs [] [] [] legs).1,
         rds ++ (redeem_loop now mid uuids k vs [] [] [] legs).2.1,
         red ++ (redeem_loop now mid uuids k vs [] [] [] legs).2.2.1,
         fl ++ (redeem_loop now mid uuids k vs [] [] [] legs).2.2.2) := by
  induction legs with
  | nil =>
    intro k vs rds red fl
    simp [redeem_loop]
  | cons leg rest ih =>
    intro k vs rds red fl
    obtain ⟨vid, a⟩ := leg
    cases hf : vs.find? (fun v => v.id = vid && v.state = "active") with
    | none =>
      have hL : redeem_loop now mid uuids k vs rds red fl ((vid, a) :: rest) =
          redeem_loop now mid uuids k vs rds red (fl ++ [failNotFound vid]) rest := by
        simp [redeem_loop, hf, failNotFound]
      have hR : redeem_loop now mid uuids k vs [] [] [] ((vid, a) :: rest) =
          redeem_loop now mid uuids k vs [] [] [failNotFound vid] rest := by
        simp [redeem_loop, hf, failNotFound]
      rw [hL, hR, ih k vs rds red (fl ++ [failNotFound vid]),
        ih k vs [] [] [failNotFound vid]]
      simp
    | some v =>
      by_cases hexp : v.expires_at < now
      · have hL : redeem_loop now mid uuids k vs rds red fl ((vid, a) :: rest) =
            redeem_loop now mid uuids k vs rds red (fl ++ [failExpired vid]) rest := by
          simp [redeem_loop, hf, hexp, failExpired]
        have hR : redeem_loop now mid uuids k vs [] [] [] ((vid, a) :: rest) =
            redeem_loop now mid uuids k vs [] [] [failExpired vid] rest := by
          simp [redeem_loop, hf, hexp, failExpired]
        rw [hL, hR, ih k vs rds red (fl ++ [failExpired vid]),
          ih k vs [] [] [failExpired vid]]
        simp
      · by_cases hbal : a > v.amount
        · have hL : redeem_loop now mid uuids k vs rds red fl ((vid, a) :: rest) =
              redeem_loop now mid uuids k vs rds red (fl ++ [failBalance vid]) rest := by
            simp [redeem_loop, hf, hexp, hbal, failBalance]
          have hR : redeem_loop now mid uuids k vs [] [] [] ((vid, a) :: rest) =
              redeem_loop now mid uuids k vs [] [] [failBalance vid] rest := by
            simp [redeem_loop, hf, hexp, hbal, failBalance]
          rw [hL, hR, ih k vs rds red (fl ++ [failBalance vid]),
            ih k vs [] [] [failBalance vid]]
          simp
        · have hL : redeem_loop now mid uuids k vs rds red fl ((vid, a) :: rest) =
              redeem_loop now mid uuids (k + 1) (redeemUpd vid a vs)
                (rds ++ [mkRedemption uuids k vid a mid])
                (red ++ [mkRedeemOk vid a v.amount]) fl rest := by
            simp [redeem_loop, hf, hexp, hbal, redeemUpd, mkRedemption, mkRedeemOk]
          have hR : redeem_loop now mid uuids k vs [] [] [] ((vid, a) :: rest) =
              redeem_loop now mid uuids (k + 1) (redeemUpd vid a vs)
                [mkRedemption uuids k vid a mid] [mkRedeemOk vid a v.amount] [] rest := by
            simp [redeem_loop, hf, hexp, hbal, redeemUpd, mkRedemption, mkRedeemOk]
          rw [hL, hR,
            ih (k + 1) (redeemUpd vid a vs) (rds ++ [mkRedemption uuids k vid a mid])
              (red ++ [mkRedeemOk vid a v.amount]) fl,
            ih (k + 1) (redeemUpd vid a vs) [mkRedemption uuids k vid a mid]
              [mkRedeemOk vid a v.amount] []]
          simp

/-- A leg on a voucher strictly past its expiry fails with
`"Voucher expired"`, changes nothing, and the remaining legs run exactly
as if the failing leg were not there. -/
theorem redeem_leg_expired (now : Int) (mid : Option String)
    (uuids : Nat → String) (k : Nat) (vs : List Voucher)
    (rest : List (String × Int)) (vid : String) (a : Int) (v : Voucher)
    (hf : vs.find? (fun w => w.id = vid && w.state = "active") = some v)
    (hexp : v.expires_at < now) :
    redeemLegs now mid uuids k vs ((vid, a) :: rest) =
      ((redeemLegs now mid uuids k vs rest).1,
       (redeemLegs now mid uuids k vs rest).2.1,
       (redeemLegs now mid uuids k vs rest).2.2.1,
       failExpired vid :: (redeemLegs now mid uuids k vs rest).2.2.2) := by
  have hR : redeemLegs now mid uuids k vs ((vid, a) :: rest) =
      redeem_loop now mid uuids k vs [] [] [failExpired vid] rest := by
    simp [redeemLegs, redeem_loop, hf, hexp, failExpired]
  rw [hR, redeem_loop_acc now mid uuids rest k vs [] [] [failExpired vid]]
  simp [redeemLegs]

/-- A leg asking more than the remaining balance fails with
`"Insufficient voucher balance"`, changes nothing, and the remaining legs
run exactly as if the failing leg were not there. -/
theorem redeem_leg_insufficient (now : Int) (mid : Option String)
    (uuids : Nat → String) (k : Nat) (vs : List Voucher)
    (rest : List (String × Int)) (vid : String) (a : Int) (v : Voucher)
    (hf : vs.find? (fun w => w.id = vid && w.state = "active") = some v)
    (hexp : ¬ v.expires_at < now) (hbal : a > v.amount) :
    redeemLegs now mid uuids k vs ((vid, a) :: rest) =
      ((redeemLegs now mid uuids k vs rest).1,
       (redeemLegs now mid uuids k vs rest).2.1,
       (redeemLegs now mid uuids k vs rest).2.2.1,
       failBalance vid :: (redeemLegs now mid uuids k vs rest).2.2.2) := by
  have hR : redeemLegs now mid uuids k vs ((vid, a) :: rest) =
      redeem_loop now mid uuids k vs [] [] [failBalance vid] rest := by
    simp [redeemLegs, redeem_loop, hf, hexp, hbal, failBalance]
  rw [hR, redeem_loop_acc now mid uuids rest k vs [] [] [failBalance vid]]
  simp [redeemLegs]

/-- A leg on an active, unexpired voucher whose amount does not exceed the
balance succeeds: it appends one redemption record carrying the amount,
reports the new balance, debits the voucher table, and hands the remaining
legs the updated table. -/
theorem redeem_leg_success (now : Int) (mid : Option String)
    (uuids : Nat → String) (k : Nat) (vs : List Voucher)
    (rest : List (String × Int)) (vid : String) (a : Int) (v : Voucher)
    (hf : vs.find? (fun w => w.id = vid && w.state = "active") = some v)
    (hexp : ¬ v.expires_at < now) (hbal : ¬ a > v.amount) :
    redeemLegs now mid uuids k vs ((vid, a) :: rest) =
      ((redeemLegs now mid uuids (k + 1) (redeemUpd vid a vs) rest).1,
       mkRedemption uuids k vid a mid ::
         (redeemLegs now mid uuids (k + 1) (redeemUpd vid a vs) rest).2.1,
       mkRedeemOk vid a v.amount ::
         (redeemLegs now mid uuids (k + 1) (redeemUpd vid a vs) rest).2.2.1,
       (redeemLegs now mid uuids (k + 1) (redeemUpd vid a vs) rest).2.2.2) := by
  have hR : redeemLegs now mid uuids k vs ((vid, a) :: rest) =
      redeem_loop now mid uuids (k + 1) (redeemUpd vid a vs)
        [mkRedemption uuids k vid a mid] [mkRedeemOk vid a v.amount] [] rest := by
    simp [redeemLegs, redeem_loop, hf, hexp, hbal, redeemUpd, mkRedemption, mkRedeemOk]
  rw [hR, redeem_loop_acc now mid uuids rest (k + 1) (redeemUpd vid a vs)
    [mkRedemption uuids k vid a mid] [mkRedeemOk vid a v.amount] []]
  simp [redeemLegs]

/-- The debit a successful leg performs, row-level: the first active row
with the id is replaced by the same row with balance reduced by the leg
amount, marked `redeemed` exactly when the new balance is 0 and left
`active` whenever it is positive; the new balance is never negative. -/
theorem redeemUpd_split (vid : String) (a : Int) (vs : List Voucher)
    (v : Voucher)
    (hf : vs.find? (fun w => w.id = vid && w.state = "active") = some v)
    (hbal : ¬ a > v.amount) :
    ∃ l₁ l₂, vs = l₁ ++ v :: l₂ ∧
      redeemUpd vid a vs = l₁ ++
        ({ v with amount := v.amount - a, state := if v.amount - a = 0 then "redeemed" else "active" }) :: l₂ ∧
      0 ≤ v.amount - a := by
  rcases updateFirst_split (fun w => w.id = vid && w.state = "active")
      (fun w =>
        let b := w.amount - a
        { w with amount := b, state := if b ≤ 0 then "redeemed" else w.state })
      vs with ⟨hfn, _⟩ | ⟨l₁, x, l₂, hl, hl₁, hx, hfn, hu⟩
  · rw [hf] at hfn; cases hfn
  · have hxv : x = v := by
      rw [hf] at hfn
      injection hfn with hfe
      exact hfe.symm
    subst hxv
    have hxs : x.state = "active" := by
      simp only [Bool.and_eq_true, decide_eq_true_eq] at hx
      exact hx.2
    refine ⟨l₁, l₂, hl, ?_, by omega⟩
    rw [redeemUpd, hu, hxs]
    have hif : (if x.amount - a ≤ 0 then "redeemed" else "active") =
        (if x.amount - a = 0 then "redeemed" else "active") :=
      if_congr ⟨fun h => by omega, fun h => by omega⟩ rfl rfl
    simp only [hif]

/-- A voucher expiring at time 100, used for time-edge runs. -/
def exVoucherAt : Voucher :=
  { id := "v3", plan_id := "p1", member_user_id := "u1", amount := 10000,
    merchant_list := ["m1"], expires_at := 100, state := "active" }

/-- The seeded state plus that voucher. -/
def exExpState : SysState := { exState with vouchers := [exVoucherAt] }

/-- C8 counterexample: a leg attempted exactly at the expiry instant
(`now = expires_at = 100`) is NOT rejected — the check is the strict
`voucher.expires_at < datetime.utcnow()` — so it succeeds and debits the
balance, refuting "a leg attempted exactly at the expiry instant is
rejected with Expired and leaves the voucher unchanged". -/
theorem C8_counterexample :
    (redeem_vouchers exExpState ["v3"] [5000] (some "m1") 100 exUuids).2 =
      .ok { redeemed := [{ voucher_id := "v3", amount := 5000, remaining := 5000 }],
            failed := [], total_redeemed := 1, total_failed := 0 } ∧
    ((redeem_vouchers exExpState ["v3"] [5000] (some "m1") 100
      exUuids).1.vouchers.map Voucher.amount) = [5000] := by
  exact ⟨by decide, by decide⟩

/-- C8 (amended): a redemption leg is rejected with `"Voucher expired"`
exactly when the current time is STRICTLY past the voucher's `expires_at`
(even though its stored state still reads `active`); such a rejection
leaves the voucher table untouched and the other legs unaffected.  At or
before the expiry instant (`now ≤ expires_at`, including equality) the
expiry check passes and the leg proceeds to the balance check: it fails
with `"Insufficient voucher balance"` or succeeds.  The only deviation
from the original claim is the boundary instant `now = expires_at`, which
the code lets through. -/
theorem C8_expired_rejection_strict :
    (∀ (now : Int) (mid : Option String) (uuids : Nat → String) (k : Nat)
        (vs : List Voucher) (rest : List (String × Int)) (vid : String)
        (a : Int) (v : Voucher),
      vs.find? (fun w => w.id = vid && w.state = "active") = some v →
      v.expires_at < now →
      redeemLegs now mid uuids k vs ((vid, a) :: rest) =
        ((redeemLegs now mid uuids k vs rest).1,
         (redeemLegs now mid uuids k vs rest).2.1,
         (redeemLegs now mid uuids k vs rest).2.2.1,
         failExpired vid :: (redeemLegs now mid uuids k vs rest).2.2.2)) ∧
    (∀ (now : Int) (mid : Option String) (uuids : Nat → String) (k : Nat)
        (vs : List Voucher) (rest : List (String × Int)) (vid : String)
        (a : Int) (v : Voucher),
      vs.find? (fun w => w.id = vid && w.state = "active") = some v →
      now ≤ v.expires_at → a > v.amount →
      redeemLegs now mid uuids k vs ((vid, a) :: rest) =
        ((redeemLegs now mid uuids k vs rest).1,
         (redeemLegs now mid uuids k vs rest).2.1,
         (redeemLegs now mid uuids k vs rest).2.2.1,
         failBalance vid :: (redeemLegs now mid uuids k vs rest).2.2.2)) ∧
    (∀ (now : Int) (mid : Option String) (uuids : Nat → String) (k : Nat)
        (vs : List Voucher) (rest : List (String × Int)) (vid : String)
        (a : Int) (v : Voucher),
      vs.find? (fun w => w.id = vid && w.state = "active") = some v →
      now ≤ v.expires_at → ¬ a > v.amount →
      redeemLegs now mid uuids k vs ((vid, a) :: rest) =
        ((redeemLegs now mid uuids (k + 1) (redeemUpd vid a vs) rest).1,
         mkRedemption uuids k vid a mid ::
           (redeemLegs now mid uuids (k + 1) (redeemUpd vid a vs) rest).2.1,
         mkRedeemOk vid a v.amount ::
           (redeemLegs now mid uuids (k + 1) (redeemUpd vid a vs) rest).2.2.1,
         (redeemLegs now mid uuids (k + 1) (redeemUpd vid a vs) rest).2.2.2)) := by
  refine ⟨redeem_leg_expired, ?_, ?_⟩
  · intro now mid uuids k vs rest vid a v hf hle hbal
    exact redeem_leg_insufficient now mid uuids k vs rest vid a v hf
      (by omega) hbal
  · intro now mid uuids k vs rest vid a v hf hle hbal
    exact redeem_leg_success now mid uuids k vs rest vid a v hf (by omega) hbal

/-- Witness for C8 (amended): at `now = 101`, one past the concrete
voucher's expiry 100, the single leg is rejected as expired and the
voucher table is left exactly as the remaining (empty) run leaves it. -/
theorem C8_expired_rejection_strict_witness :
    redeemLegs 101 (some "m1") exUuids 0 [exVoucherAt] [("v3", 5000)] =
      ((redeemLegs 101 (some "m1") exUuids 0 [exVoucherAt] []).1,
       (redeemLegs 101 (some "m1") exUuids 0 [exVoucherAt] []).2.1,
       (redeemLegs 101 (some "m1") exUuids 0 [exVoucherAt] []).2.2.1,
       failExpired "v3" :: (redeemLegs 101 (some "m1") exUuids 0 [exVoucherAt] []).2.2.2) :=
  C8_expired_rejection_strict.1 101 (some "m1") exUuids 0 [exVoucherAt] []
    "v3" 5000 exVoucherAt (by decide) (by decide)

/-- C10: the per-leg balance check is only `amount > balance` — there is
no positivity check.  For every active, unexpired voucher and every
integer amount ≤ the balance, including 0 and negatives, the leg succeeds,
appends a redemption record carrying that amount, and sets the balance to
old − amount; concretely, a −10.00 leg against a 100.00 voucher succeeds
and raises the balance to 110.00, above its minted value, the voucher
staying `active`. -/
theorem C10_no_positivity_check :
    (∀ (now : Int) (mid : Option String) (uuids : Nat → String) (k : Nat)
        (vs : List Voucher) (rest : List (String × Int)) (vid : String)
        (a : Int) (v : Voucher),
      vs.find? (fun w => w.id = vid && w.state = "active") = some v →
      ¬ v.expires_at < now → a ≤ v.amount →
      redeemLegs now mid uuids k vs ((vid, a) :: rest) =
        ((redeemLegs now mid uuids (k + 1) (redeemUpd vid a vs) rest).1,
         mkRedemption uuids k vid a mid ::
           (redeemLegs now mid uuids (k + 1) (redeemUpd vid a vs) rest).2.1,
         mkRedeemOk vid a v.amount ::
           (redeemLegs now mid uuids (k + 1) (redeemUpd vid a vs) rest).2.2.1,
         (redeemLegs now mid uuids (k + 1) (redeemUpd vid a vs) rest).2.2.2)) ∧
    (∀ (vid : String) (a : Int) (vs : List Voucher) (v : Voucher),
      vs.find? (fun w => w.id = vid && w.state = "active") = some v →
      a ≤ v.amount →
      ∃ l₁ l₂, vs = l₁ ++ v :: l₂ ∧
        redeemUpd vid a vs = l₁ ++
          ({ v with amount := v.amount - a, state := if v.amount - a = 0 then "redeemed" else "active" }) :: l₂) ∧
    ((redeem_vouchers exExpState ["v3"] [-1000] none 50 exUuids).2 =
      .ok { redeemed := [{ voucher_id := "v3", amount := -1000, remaining := 11000 }],
            failed := [], total_redeemed := 1, total_failed := 0 } ∧
     ((redeem_vouchers exExpState ["v3"] [-1000] none 50
        exUuids).1.vouchers.map (fun v => (v.amount, v.state))) =
       [(11000, "active")] ∧
     ((redeem_vouchers exExpState ["v3"] [-1000] none 50
        exUuids).1.redemptions.map VoucherRedemption.amount) = [-1000]) := by
  refine ⟨?_, ?_, by decide, by decide, by decide⟩
  · intro now mid uuids k vs rest vid a v hf hexp ha
    exact redeem_leg_success now mid uuids k vs rest vid a v hf hexp (by omega)
  · intro vid a vs v hf ha
    obtain ⟨l₁, l₂, h1, h2, _⟩ := redeemUpd_split vid a vs v hf (by omega)
    exact ⟨l₁, l₂, h1, h2⟩

/-- Witness for C10: the −10.00 leg against the concrete 100.00 voucher
takes the success path of the theorem. -/
theorem C10_no_positivity_check_witness :
    redeemLegs 50 none exUuids 0 [exVoucherAt] [("v3", -1000)] =
      ((redeemLegs 50 none exUuids 0 (redeemUpd "v3" (-1000) [exVoucherAt]) []).1,
       mkRedemption exUuids 0 "v3" (-1000) none ::
         (redeemLegs 50 none exUuids 1 (redeemUpd "v3" (-1000) [exVoucherAt]) []).2.1,
       mkRedeemOk "v3" (-1000) 10000 ::
         (redeemLegs 50 none exUuids 1 (redeemUpd "v3" (-1000) [exVoucherAt]) []).2.2.1,
       (redeemLegs 50 none exUuids 1 (redeemUpd "v3" (-1000) [exVoucherAt]) []).2.2.2) := by
  have h := C10_no_positivity_check.1 50 none exUuids 0 [exVoucherAt] []
    "v3" (-1000) exVoucherAt (by decide) (by decide) (by decide)
  simpa using h

/-! ## Mint / create member loops (C7) -/

/-- The member ids of the vouchers the mint loop creates are exactly the
occurrences of member ids whose user exists, in list order — unknown ids
are skipped, duplicates are kept. -/
theorem mint_loop_members (users : List User) (d : VoucherCreate)
    (uuids : Nat → String) (members : List String) :
    ∀ k : Nat,
      (mint_loop users d uuids k members).map (fun v => v.member_user_id) =
        members.filter (fun m => (users.find? (fun u => u.id = m)).isSome) := by
  induction members with
  | nil => intro k; simp [mint_loop]
  | cons m rest ih =>
    intro k
    by_cases hm : (users.find? (fun u => u.id = m)).isSome
    · simp [mint_loop, hm, List.filter_cons, ih]
    · simp [mint_loop, hm, List.filter_cons, ih]

/-- Same shape for the mandate-creation loop. -/
theorem create_loop_members (users : List User) (d : MandateCreate)
    (uuids : Nat → String) (members : List String) :
    ∀ k : Nat,
      (create_loop users d uuids k members).map (fun m => m.member_user_id) =
        members.filter (fun m => (users.find? (fun u => u.id = m)).isSome) := by
  induction members with
  | nil => intro k; simp [create_loop]
  | cons m rest ih =>
    intro k
    by_cases hm : (users.find? (fun u => u.id = m)).isSome
    · simp [create_loop, hm, List.filter_cons, ih]
    · simp [create_loop, hm, List.filter_cons, ih]

/-- A mint payload listing the same member twice plus an unknown one. -/
def exDupMint : VoucherCreate :=
  { plan_id := "p1", member_user_ids := ["u1", "u1", "ghost"], amount := 10000,
    merchant_list := [], expires_at := 500000 }

/-- C7 counterexample: minting for member list `["u1", "u1", "ghost"]`
creates TWO vouchers for `u1` (duplicates are not skipped; only the
unknown id is), whereas the distinct existing member ids of the list are
just `["u1"]` — refuting the claimed one-to-one correspondence with the
distinct member ids. -/
theorem C7_counterexample :
    ((mint_vouchers exState "u1" exDupMint exUuids).2.toOption.map
      (fun r => r.vouchers.map (fun v => v.member_user_id))) =
      some ["u1", "u1"] ∧
    (exDupMint.member_user_ids.dedup.filter
      (fun m => (exState.users.find? (fun u => u.id = m)).isSome)) = ["u1"] := by
  exact ⟨by decide, by decide⟩

/-- C7 (amended): voucher mint (and mandate create) on an authorized plan
succeeds with one voucher (mandate) per OCCURRENCE of a member id in the
request list whose user exists in the directory, in list order; unknown
member ids are silently skipped without error, and duplicate ids produce
one voucher (mandate) per occurrence rather than being deduplicated. -/
theorem C7_mint_per_occurrence :
    (∀ (s : SysState) (cu : String) (d : VoucherCreate) (uuids : Nat → String)
        (plan : Plan),
      s.plans.find? (fun p => p.id = d.plan_id) = some plan →
      plan.created_by = cu →
      (mint_vouchers s cu d uuids).2 =
        .ok { vouchers := mint_loop s.users d uuids 0 d.member_user_ids } ∧
      (mint_vouchers s cu d uuids).1.vouchers =
        s.vouchers ++ mint_loop s.users d uuids 0 d.member_user_ids) ∧
    (∀ (users : List User) (d : VoucherCreate) (uuids : Nat → String)
        (members : List String) (k : Nat),
      (mint_loop users d uuids k members).map (fun v => v.member_user_id) =
        members.filter (fun m => (users.find? (fun u => u.id = m)).isSome)) ∧
    (∀ (s : SysState) (cu : String) (d : MandateCreate) (uuids : Nat → String)
        (plan : Plan),
      s.plans.find? (fun p => p.id = d.plan_id) = some plan →
      plan.created_by = cu →
      (create_mandates s cu d uuids).2 =
        .ok { mandates := create_loop s.users d uuids 0 d.member_user_ids } ∧
      (create_mandates s cu d uuids).1.mandates =
        s.mandates ++ create_loop s.users d uuids 0 d.member_user_ids) ∧
    (∀ (users : List User) (d : MandateCreate) (uuids : Nat → String)
        (members : List String) (k : Nat),
      (create_loop users d uuids k members).map (fun m => m.member_user_id) =
        members.filter (fun m => (users.find? (fun u => u.id = m)).isSome)) := by
  refine ⟨?_, mint_loop_members, ?_, create_loop_members⟩
  · intro s cu d uuids plan hp hc
    constructor
    · simp [mint_vouchers, hp, hc]
    · simp [mint_vouchers, hp, hc]
  · intro s cu d uuids plan hp hc
    constructor
    · simp [create_mandates, hp, hc]
    · simp [create_mandates, hp, hc]

/-- Witness for C7 (amended) at the duplicate-member payload: the mint
succeeds with exactly the loop's vouchers appended. -/
theorem C7_mint_per_occurrence_witness :
    (mint_vouchers exState "u1" exDupMint exUuids).2 =
      .ok { vouchers := mint_loop exState.users exDupMint exUuids 0
              exDupMint.member_user_ids } ∧
    (mint_vouchers exState "u1" exDupMint exUuids).1.vouchers =
      exState.vouchers ++ mint_loop exState.users exDupMint exUuids 0
        exDupMint.member_user_ids :=
  C7_mint_per_occurrence.1 exState "u1" exDupMint exUuids exPlan
    (by decide) (by decide)

/-! ## Idempotent replay (C6) -/

/-- A second plan row, the entity the concrete handler creates. -/
def exPlan2 : Plan :=
  { id := "p2", name := "Dinner", cap_per_head := 20000, window_start := 0,
    window_end := 1000, merchant_whitelist := [], status := "active",
    created_by := "u1" }

/-- A concrete side-effecting route body: creates plan `p2` and answers
with its id — re-executing it would create a duplicate plan. -/
def exCreatePlanHandler : SysState → SysState × Except HttpError JsonVal :=
  fun s => ({ s with plans := s.plans ++ [exPlan2] },
            .ok (JsonVal.obj [("plan_id", JsonVal.str "p2")]))

/-- C6: (a) `store_response` writes at most once — when a record for the
key already exists the call is a silent no-op (first write wins); (b) for
a side-effecting request whose first run succeeds with a truthy body under
a fresh key, the first call stores the body, and a second call bearing the
same key returns the stored payload verbatim with the database state and
the idempotency table unchanged — the underlying operation is not
re-executed and no duplicate entity is created. -/
theorem C6_idempotent_replay :
    (∀ (table : List IdemRecord) (k : String) (p : JsonVal) (fid : String),
      (table.find? (fun r => r.idempotency_key = k)).isSome = true →
      store_response table k p fid = table) ∧
    (∀ (handler : SysState → SysState × Except HttpError JsonVal)
        (s s₁ : SysState) (table : List IdemRecord) (k : String)
        (fid₁ fid₂ : String) (body : JsonVal),
      table.find? (fun r => r.idempotency_key = k) = none →
      handler s = (s₁, .ok body) →
      pyTruthy body = true →
      handle_with_idempotency handler (some k) table s fid₁ =
        (s₁, store_response table k body fid₁, .ok body) ∧
      handle_with_idempotency handler (some k)
          (handle_with_idempotency handler (some k) table s fid₁).2.1
          (handle_with_idempotency handler (some k) table s fid₁).1 fid₂ =
        ((handle_with_idempotency handler (some k) table s fid₁).1,
         (handle_with_idempotency handler (some k) table s fid₁).2.1,
         .ok body)) := by
  constructor
  · intro table k p fid hsome
    obtain ⟨rec, hrec⟩ := Option.isSome_iff_exists.mp hsome
    simp [store_response, hrec]
  · intro handler s s₁ table k fid₁ fid₂ body hfind hh htr
    have hget : get_response table k = none := by
      simp [get_response, hfind]
    have hfirst : handle_with_idempotency handler (some k) table s fid₁ =
        (s₁, store_response table k body fid₁, .ok body) := by
      simp [handle_with_idempotency, hget, hh]
    have hstorefind : (store_response table k body fid₁).find?
        (fun r => r.idempotency_key = k) = some ⟨fid₁, k, body⟩ := by
      simp [store_response, hfind]
    have hget2 : get_response (store_response table k body fid₁) k = some body := by
      simp [get_response, hstorefind, htr]
    refine ⟨hfirst, ?_⟩
    rw [hfirst]
    simp [handle_with_idempotency, hget2]

/-- Witness for C6: the concrete create-plan request under key `"K1"`
stores its body on the first call, and the second call replays it with
nothing re-created. -/
theorem C6_idempotent_replay_witness :
    handle_with_idempotency exCreatePlanHandler (some "K1") [] exState "idk-1" =
      ({ exState with plans := exState.plans ++ [exPlan2] },
       store_response [] "K1" (JsonVal.obj [("plan_id", JsonVal.str "p2")]) "idk-1",
       .ok (JsonVal.obj [("plan_id", JsonVal.str "p2")])) ∧
    handle_with_idempotency exCreatePlanHandler (some "K1")
        (handle_with_idempotency exCreatePlanHandler (some "K1") [] exState "idk-1").2.1
        (handle_with_idempotency exCreatePlanHandler (some "K1") [] exState "idk-1").1
        "idk-2" =
      ((handle_with_idempotency exCreatePlanHandler (some "K1") [] exState "idk-1").1,
       (handle_with_idempotency exCreatePlanHandler (some "K1") [] exState "idk-1").2.1,
       .ok (JsonVal.obj [("plan_id", JsonVal.str "p2")])) :=
  C6_idempotent_replay.2 exCreatePlanHandler exState
    { exState with plans := exState.plans ++ [exPlan2] } [] "K1" "idk-1" "idk-2"
    (JsonVal.obj [("plan_id", JsonVal.str "p2")]) rfl rfl rfl
